import Mathlib

/-
Verification development for the cart/order consistency core of the
`hosokawa-y/dynamodb-shop` backend (Go).

Shallow embedding notes:
* DynamoDB is modelled as a typed single-table store.  The repository's key
  layout (PK/SK prefixes `USER#`/`CART#`, `USER#`/`ORDER#`, `ORDER#`/`ITEM#`,
  `PRODUCT#`/`METADATA`) puts the four entity families into disjoint key
  spaces, so the store is represented as four association lists, one per
  family, each keyed exactly as the corresponding PK/SK pair.
* Go `int` fields (quantity, price, stock, version) are modelled as `Int`;
  none of the verified properties involve 64-bit overflow.
* Timestamp fields (`addedAt`, `updatedAt`, `createdAt`) and GSI attributes
  are write-only in the verified code paths and are omitted.
* Each service function additionally returns the list of storage calls it
  performed (its trace), which is the observable I/O behaviour of the Go
  code; claims about "no storage access" and "at most N attempts" are stated
  over this trace.
-/

namespace DShop

/-- Cart line, mirroring `domain.CartItem` / `repository.cartRecord`
(PK `USER#userId`, SK `CART#productId`). -/
structure CartItem where
  userId : String
  productId : String
  productName : String
  price : Int
  quantity : Int
  version : Int
deriving Repr, DecidableEq

/-- Product row (PK `PRODUCT#id`, SK `METADATA`).  DynamoDB attribute names
are case-sensitive, and the code refers to two distinct stock attributes on
this row, so the model carries both:

* `stock` is the attribute named `stock` (lowercase) that
  `repository.productRecord` persists (tag `dynamodbav:"stock"`,
  `product_repo.go`) and that `ProductRepository.GetByID` unmarshals into
  `domain.Product.Stock` — the stock value the whole application reads and
  writes.
* `stockAttr` is the attribute named `Stock` (capital) that only the
  checkout expressions in `OrderRepository.CreateOrder` refer to
  (`ConditionExpression "Stock >= :qty"`,
  `UpdateExpression "SET Stock = Stock - :qty"`, `order_repo.go`).  No code
  path under `src/` ever writes an attribute named `Stock`
  (`productRecord` writes only `stock`, via full-replace `PutItem` in both
  `Create` and `Update`), so on every program-written row this attribute is
  absent; `none` models absence. -/
structure Product where
  id : String
  name : String
  price : Int
  stock : Int
  stockAttr : Option Int
deriving Repr, DecidableEq

/-- Order line, mirroring `domain.OrderItem` / `repository.orderItemRecord`
(PK `ORDER#orderId`, SK `ITEM#productId`). -/
structure OrderItem where
  orderId : String
  productId : String
  productName : String
  price : Int
  quantity : Int
  subtotal : Int
deriving Repr, DecidableEq

/-- Stored order header, mirroring `repository.orderRecord`
(PK `USER#userId`, SK `ORDER#orderId`). -/
structure OrderRec where
  orderId : String
  userId : String
  status : String
  totalAmount : Int
  itemCount : Int
deriving Repr, DecidableEq

/-- Service-level order value, mirroring `domain.Order`. -/
structure Order where
  id : String
  userId : String
  status : String
  totalAmount : Int
  itemCount : Int
  items : List OrderItem
deriving Repr, DecidableEq

/-- Mirrors `domain.OrderStatusConfirmed = "CONFIRMED"`. -/
def OrderStatusConfirmed : String := "CONFIRMED"

/-- Error values of the repository and service layers.  Each constructor
mirrors one Go error variable; `storage` stands for an unclassified
storage-layer error and `txCanceled` for a `TransactionCanceledException`
whose cancellation reasons match none of the classified codes (both are
surfaced as-is by the Go code). -/
inductive Err where
  | cartItemNotFound      -- repository.ErrCartItemNotFound
  | versionMismatch       -- repository.ErrVersionMismatch
  | productNotFound       -- repository.ErrProductNotFound
  | orderNotFound         -- repository.ErrOrderNotFound
  | invalidQuantity       -- service.ErrInvalidQuantity
  | insufficientStockCart -- service.ErrInsufficientStock (advisory cart check)
  | optimisticLockRetry   -- service.ErrOptimisticLockRetry
  | insufficientStockTx   -- repository.ErrInsufficientStock (checkout)
  | transactionConflict   -- repository.ErrTransactionConflict
  | txCanceled (reasons : List String)
  | storage (code : Nat)
deriving Repr, DecidableEq

deriving instance DecidableEq for Except

/-! ### Association-list primitives

The DynamoDB table holds at most one item per primary key; `PutItem`
replaces, `UpdateItem` updates in place, `DeleteItem` removes.  These three
generic helpers realise that on association lists. -/

/-- First row whose key is `k`. -/
def lookupList {α κ : Type} [DecidableEq κ] (key : α → κ) (k : κ) : List α → Option α
  | [] => none
  | y :: ys => if key y = k then some y else lookupList key k ys

/-- Replace the row with the same key as `x`, or append `x` if absent
(`PutItem` semantics). -/
def putList {α κ : Type} [DecidableEq κ] (key : α → κ) (x : α) : List α → List α
  | [] => [x]
  | y :: ys => if key y = key x then x :: ys else y :: putList key x ys

/-- Remove the rows with key `k` (`DeleteItem` semantics). -/
def eraseList {α κ : Type} [DecidableEq κ] (key : α → κ) (k : κ) : List α → List α
  | [] => []
  | y :: ys => if key y = k then eraseList key k ys else y :: eraseList key k ys

/-- Key of a cart row: the `(USER#userId, CART#productId)` primary key. -/
def cartKey (c : CartItem) : String × String := (c.userId, c.productId)

/-- Key of a product row: the `PRODUCT#id` partition key. -/
def productKey (p : Product) : String := p.id

/-- Key of an order header: the `(USER#userId, ORDER#orderId)` primary key. -/
def orderKey (o : OrderRec) : String × String := (o.userId, o.orderId)

/-- Key of an order line: the `(ORDER#orderId, ITEM#productId)` primary key. -/
def orderItemKey (it : OrderItem) : String × String := (it.orderId, it.productId)

/-- The DynamoDB single table, split by entity family (see header comment). -/
structure Store where
  carts : List CartItem
  products : List Product
  orders : List OrderRec
  orderItems : List OrderItem
deriving Repr, DecidableEq

/-! ### Repository layer -/

/-- Mirrors `CartRepository.GetByUserID`: `Query(PK = USER#userId AND
begins_with(SK, CART#))`, returning all cart rows of the user. -/
def CartRepo.getByUserID (s : Store) (uid : String) : List CartItem :=
  s.carts.filter (fun c => c.userId == uid)

/-- Mirrors `CartRepository.GetItem`: point read of one cart row,
`ErrCartItemNotFound` when absent. -/
def CartRepo.getItem (s : Store) (uid pid : String) : Except Err CartItem :=
  match lookupList cartKey (uid, pid) s.carts with
  | some c => .ok c
  | none => .error .cartItemNotFound

/-- Mirrors `CartRepository.Add`: sets `item.Version = 1` and writes the row
with an unconditional `PutItem`.  Returns the written item (the Go code
mutates the caller's item in place) and the new store. -/
def CartRepo.add (s : Store) (item : CartItem) : CartItem × Store :=
  let item := { item with version := 1 }
  (item, { s with carts := putList cartKey item s.carts })

/-- Mirrors `CartRepository.UpdateQuantity`: `UpdateItem` with
`ConditionExpression version = :currentVer`, setting `quantity` and
`version = currentVer + 1`.  A condition evaluated against an absent item
fails, so both a missing row and a version mismatch surface as
`ErrVersionMismatch` (the Go code maps `ConditionalCheckFailedException`
to that error). -/
def CartRepo.updateQuantity (s : Store) (uid pid : String) (qty ver : Int) :
    Except Err Store :=
  match lookupList cartKey (uid, pid) s.carts with
  | none => .error .versionMismatch
  | some c =>
    if c.version = ver then
      .ok { s with carts :=
              putList cartKey { c with quantity := qty, version := ver + 1 } s.carts }
    else .error .versionMismatch

/-- Mirrors `CartRepository.Delete`: unconditional `DeleteItem`. -/
def CartRepo.delete (s : Store) (uid pid : String) : Store :=
  { s with carts := eraseList cartKey (uid, pid) s.carts }

/-- Mirrors `ProductRepository.GetByID`. -/
def ProductRepo.getByID (s : Store) (pid : String) : Except Err Product :=
  match lookupList productKey pid s.products with
  | some p => .ok p
  | none => .error .productNotFound

/-! ### Checkout transaction -/

/-- One entry of the `TransactWriteItems` request built by
`OrderRepository.CreateOrder`, in the repository's own vocabulary. -/
inductive TxOp where
  | putOrder (rec : OrderRec)
  | putOrderItem (rec : OrderItem)
  | decStock (pid : String) (qty : Int)
  | deleteCart (uid pid : String)
deriving Repr, DecidableEq

/-- Evaluation of the checkout `ConditionExpression "Stock >= :qty"` over a
product list.  The expression names the attribute `Stock` (capital), i.e.
the `stockAttr` component of the row, not the persisted `stock` attribute;
a condition over a missing item fails, and a comparison against an absent
attribute also fails. -/
def stockOK (l : List Product) (pid : String) (qty : Int) : Bool :=
  match lookupList productKey pid l with
  | some p =>
    match p.stockAttr with
    | some v => decide (qty ≤ v)
    | none => false
  | none => false

/-- Per-operation condition of the transaction: only the stock decrements
carry a `ConditionExpression`. -/
def condCheck (s : Store) : TxOp → Bool
  | .decStock pid qty => stockOK s.products pid qty
  | _ => true

/-- Apply the checkout `UpdateExpression "SET Stock = Stock - :qty"` to the
product row (only reached when its condition held, hence only with the
`Stock` attribute present).  The expression updates the attribute `Stock`
(capital), i.e. the `stockAttr` component; the persisted `stock` attribute
is not named by the expression and is left untouched. -/
def decStockList (pid : String) (qty : Int) : List Product → List Product
  | [] => []
  | p :: ps =>
    if p.id = pid then
      { p with stockAttr := p.stockAttr.map (fun v => v - qty) } :: ps
    else p :: decStockList pid qty ps

/-- Effect of one committed transaction entry on the store. -/
def applyOp (s : Store) : TxOp → Store
  | .putOrder rec => { s with orders := putList orderKey rec s.orders }
  | .putOrderItem rec => { s with orderItems := putList orderItemKey rec s.orderItems }
  | .decStock pid qty => { s with products := decStockList pid qty s.products }
  | .deleteCart uid pid => { s with carts := eraseList cartKey (uid, pid) s.carts }

/-- Apply a committed transaction. -/
def applyOps (s : Store) (ops : List TxOp) : Store :=
  ops.foldl applyOp s

/-- Outcome of submitting a `TransactWriteItems` call. -/
inductive TxResult where
  | ok (s' : Store)
  | canceled (reasons : List String)
  | failed (code : Nat)
deriving Repr, DecidableEq

/-- External nondeterminism of a transaction submission: `healthy` lets the
store's own state decide (conditions evaluated against the snapshot, all
effects applied atomically); `canceled` is a cancellation for an external
cause (e.g. a conflict with another in-flight transaction) carrying the
per-item `CancellationReasons` codes; `failure` is any other storage-layer
error. -/
inductive TxIntf where
  | healthy
  | canceled (reasons : List String)
  | failure (code : Nat)
deriving Repr, DecidableEq

/-- Semantics of `TransactWriteItems` (spec section 6: `TransactWrite(list)
→ ok | Cancelled(perItemReasons)`): all operations commit together, or none
do and the per-item reasons report `ConditionalCheckFailed` exactly at the
operations whose condition failed. -/
def transactWrite (s : Store) (ops : List TxOp) (itf : TxIntf) : TxResult :=
  match itf with
  | .healthy =>
    if ops.all (condCheck s) then .ok (applyOps s ops)
    else .canceled (ops.map fun op =>
      if condCheck s op then "None" else "ConditionalCheckFailed")
  | .canceled rs => .canceled rs
  | .failure c => .failed c

/-- Mirrors the classification loop of `OrderRepository.CreateOrder`: scan
the cancellation reasons and return on the first code equal to
`ConditionalCheckFailed` (→ `ErrInsufficientStock`) or `TransactionConflict`
(→ `ErrTransactionConflict`). -/
def classifyReasons : List String → Option Err
  | [] => none
  | r :: rs =>
    if r = "ConditionalCheckFailed" then some .insufficientStockTx
    else if r = "TransactionConflict" then some .transactionConflict
    else classifyReasons rs

/-- The order-line record as persisted by `OrderRepository.CreateOrder`:
the generated order id stamped on and `Subtotal = Price * Quantity`
computed in the repository. -/
def stampOrderItem (orderId : String) (it : OrderItem) : OrderItem :=
  { it with orderId := orderId, subtotal := it.price * it.quantity }

/-- Mirrors the construction of the `TransactWriteItems` request in
`OrderRepository.CreateOrder`, in the Go order: the order-header put, one
put per order line, one conditional stock decrement per line, and one
delete per consumed cart line. -/
def buildTransactItems (orderId : String) (order : Order) (items : List OrderItem)
    (cartItems : List CartItem) : List TxOp :=
  [TxOp.putOrder
    { orderId := orderId, userId := order.userId, status := OrderStatusConfirmed,
      totalAmount := order.totalAmount, itemCount := order.itemCount }]
  ++ items.map (fun it => TxOp.putOrderItem (stampOrderItem orderId it))
  ++ items.map (fun it => TxOp.decStock it.productId it.quantity)
  ++ cartItems.map (fun c => TxOp.deleteCart c.userId c.productId)

/-- Storage calls observable from the service layer (the trace). -/
inductive Ev where
  | queryCart (uid : String)
  | getCartItem (uid pid : String)
  | getProduct (pid : String)
  | putCartItem (item : CartItem)
  | condUpdateCart (uid pid : String) (qty ver : Int)
  | deleteCartItem (uid pid : String)
  | txSubmit (ops : List TxOp)
deriving Repr, DecidableEq

/-- Whether a storage call writes (or attempts to write) state. -/
def isWriteEv : Ev → Bool
  | .queryCart _ => false
  | .getCartItem _ _ => false
  | .getProduct _ => false
  | .putCartItem _ => true
  | .condUpdateCart _ _ _ _ => true
  | .deleteCartItem _ _ => true
  | .txSubmit _ => true

/-- Whether a storage call is a conditional cart write attempt. -/
def isCondWrite : Ev → Bool
  | .condUpdateCart _ _ _ _ => true
  | _ => false

/-- Mirrors `OrderRepository.CreateOrder`: stamp the generated order id on
the order, build the transaction, submit it, and classify a failure.
`orderId` stands for the freshly generated UUID. -/
def OrderRepo.createOrder (s : Store) (itf : TxIntf) (orderId : String)
    (order : Order) (items : List OrderItem) (cartItems : List CartItem) :
    Except Err (Order × Store) × List Ev :=
  let order := { order with id := orderId }
  let ops := buildTransactItems orderId order items cartItems
  (match transactWrite s ops itf with
   | .ok s' => .ok (order, s')
   | .canceled rs =>
     .error (match classifyReasons rs with
             | some e => e
             | none => .txCanceled rs)
   | .failed c => .error (.storage c),
   [.txSubmit ops])

/-- the error with which `OrderService.CreateOrder` rejects an empty cart:
the Go service returns `repository.ErrCartItemNotFound`, which the HTTP
handler surfaces as the "Cart is empty" client error — the spec's
`EmptyCart` kind. -/
def emptyCartError : Err := .cartItemNotFound

/-- The order line `OrderService.CreateOrder` builds from one cart line:
product id/name/unit price/quantity copied, `subtotal = price * quantity`
computed. -/
def toOrderItem (c : CartItem) : OrderItem :=
  { orderId := "", productId := c.productId, productName := c.productName,
    price := c.price, quantity := c.quantity, subtotal := c.price * c.quantity }

/-- The order lines `OrderService.CreateOrder` builds from the cart. -/
def buildOrderItems (cartItems : List CartItem) : List OrderItem :=
  cartItems.map toOrderItem

/-- The total the service accumulates over the cart: Σ price × quantity. -/
def cartTotalAmount (cartItems : List CartItem) : Int :=
  (cartItems.map fun c => c.price * c.quantity).sum

/-- The order header value the service builds before the transaction. -/
def buildOrder (uid : String) (cartItems : List CartItem) : Order :=
  { id := "", userId := uid, status := OrderStatusConfirmed,
    totalAmount := cartTotalAmount cartItems,
    itemCount := (buildOrderItems cartItems).length, items := [] }

/-- Mirrors `OrderService.CreateOrder`: read the cart (reject an empty
one), build the order lines (`subtotal = price * quantity`), sum
`totalAmount`, count `itemCount`, and delegate to the repository.  The cart
is read from `sRead`; the transaction executes against `sTx` (they differ
only if a concurrent writer intervened between the two storage calls). -/
def OrderService.createOrder (sRead sTx : Store) (itf : TxIntf)
    (orderId uid : String) : Except Err Order × Store × List Ev :=
  let cartItems := CartRepo.getByUserID sRead uid
  if cartItems.isEmpty then (.error emptyCartError, sTx, [.queryCart uid])
  else
    match OrderRepo.createOrder sTx itf orderId (buildOrder uid cartItems)
        (buildOrderItems cartItems) cartItems with
    | (.ok (o, s'), tr) =>
      (.ok { o with items := buildOrderItems cartItems }, s', .queryCart uid :: tr)
    | (.error e, tr) => (.error e, sTx, .queryCart uid :: tr)

/-! ### Cart service -/

/-- Mirrors `maxRetries = 3` in `cart_service.go`. -/
def maxRetries : Nat := 3

/-- Sequential (interference-free) form of
`CartService.updateQuantityWithRetry`: each storage call sees the store
produced by the previous one.  Returns the result, the final store and the
trace. -/
def CartService.retryLoop (s : Store) (uid pid : String) (qty : Int) :
    Nat → Int → Except Err Unit × Store × List Ev
  | 0, _ => (.error .optimisticLockRetry, s, [])
  | n + 1, ver =>
    match CartRepo.updateQuantity s uid pid qty ver with
    | .ok s' => (.ok (), s', [.condUpdateCart uid pid qty ver])
    | .error e =>
      if e = .versionMismatch then
        match CartRepo.getItem s uid pid with
        | .ok item =>
          let r := CartService.retryLoop s uid pid qty n item.version
          (r.1, r.2.1, .condUpdateCart uid pid qty ver :: .getCartItem uid pid :: r.2.2)
        | .error e' =>
          (.error e', s, [.condUpdateCart uid pid qty ver, .getCartItem uid pid])
      else (.error e, s, [.condUpdateCart uid pid qty ver])

/-- Sequential `CartService.updateQuantityWithRetry`. -/
def CartService.updateQuantityWithRetry (s : Store) (uid pid : String)
    (qty ver : Int) : Except Err Unit × Store × List Ev :=
  CartService.retryLoop s uid pid qty maxRetries ver

/-- Concurrent form of `CartService.updateQuantityWithRetry`: the store
seen by the i-th conditional write is `wenv i` and the store seen by the
i-th re-read is `renv i` (arbitrary, standing for whatever interleaving of
concurrent writers happened).  Returns the result and the trace. -/
def retryLoopEnv (wenv renv : Nat → Store) (uid pid : String) (qty : Int) :
    Nat → Nat → Int → Except Err Unit × List Ev
  | _, 0, _ => (.error .optimisticLockRetry, [])
  | i, n + 1, ver =>
    match CartRepo.updateQuantity (wenv i) uid pid qty ver with
    | .ok _ => (.ok (), [.condUpdateCart uid pid qty ver])
    | .error e =>
      if e = .versionMismatch then
        match CartRepo.getItem (renv i) uid pid with
        | .ok item =>
          let r := retryLoopEnv wenv renv uid pid qty (i + 1) n item.version
          (r.1, .condUpdateCart uid pid qty ver :: .getCartItem uid pid :: r.2)
        | .error e' =>
          (.error e', [.condUpdateCart uid pid qty ver, .getCartItem uid pid])
      else (.error e, [.condUpdateCart uid pid qty ver])

/-- Concurrent `CartService.updateQuantityWithRetry`. -/
def updateQuantityWithRetryEnv (wenv renv : Nat → Store) (uid pid : String)
    (qty ver : Int) : Except Err Unit × List Ev :=
  retryLoopEnv wenv renv uid pid qty 0 maxRetries ver

/-- Mirrors `CartService.AddItem` (sequential): validate the quantity, read
the product, read any existing cart line, check stock against the
prospective total, then either merge through the optimistic-update routine
or put a fresh line with version 1 and the product's current price. -/
def CartService.addItem (s : Store) (uid pid : String) (qty : Int) :
    Except Err CartItem × Store × List Ev :=
  if qty ≤ 0 then (.error .invalidQuantity, s, [])
  else
    match ProductRepo.getByID s pid with
    | .error e => (.error e, s, [.getProduct pid])
    | .ok product =>
      match CartRepo.getItem s uid pid with
      | .ok existing =>
        let totalQuantity := qty + existing.quantity
        if product.stock < totalQuantity then
          (.error .insufficientStockCart, s, [.getProduct pid, .getCartItem uid pid])
        else
          let r := CartService.updateQuantityWithRetry s uid pid totalQuantity existing.version
          match r.1 with
          | .error e =>
            (.error e, r.2.1, .getProduct pid :: .getCartItem uid pid :: r.2.2)
          | .ok _ =>
            match CartRepo.getItem r.2.1 uid pid with
            | .ok item =>
              (.ok item, r.2.1,
               .getProduct pid :: .getCartItem uid pid :: r.2.2 ++ [.getCartItem uid pid])
            | .error e =>
              (.error e, r.2.1,
               .getProduct pid :: .getCartItem uid pid :: r.2.2 ++ [.getCartItem uid pid])
      | .error e =>
        if e = .cartItemNotFound then
          if product.stock < qty then
            (.error .insufficientStockCart, s, [.getProduct pid, .getCartItem uid pid])
          else
            let item : CartItem :=
              { userId := uid, productId := pid, productName := product.name,
                price := product.price, quantity := qty, version := 0 }
            let r := CartRepo.add s item
            (.ok r.1, r.2, [.getProduct pid, .getCartItem uid pid, .putCartItem r.1])
        else (.error e, s, [.getProduct pid, .getCartItem uid pid])

/-- Mirrors `CartService.UpdateQuantity` (sequential): validate the
quantity, re-check stock against the requested quantity, delegate to the
optimistic-update routine, then re-read and return the updated line. -/
def CartService.updateQuantity (s : Store) (uid pid : String) (qty ver : Int) :
    Except Err CartItem × Store × List Ev :=
  if qty ≤ 0 then (.error .invalidQuantity, s, [])
  else
    match ProductRepo.getByID s pid with
    | .error e => (.error e, s, [.getProduct pid])
    | .ok product =>
      if product.stock < qty then
        (.error .insufficientStockCart, s, [.getProduct pid])
      else
        let r := CartService.updateQuantityWithRetry s uid pid qty ver
        match r.1 with
        | .error e => (.error e, r.2.1, .getProduct pid :: r.2.2)
        | .ok _ =>
          match CartRepo.getItem r.2.1 uid pid with
          | .ok item => (.ok item, r.2.1, .getProduct pid :: r.2.2 ++ [.getCartItem uid pid])
          | .error e => (.error e, r.2.1, .getProduct pid :: r.2.2 ++ [.getCartItem uid pid])

/-! ### Derived definitions and concrete sample data

Definitions used by the theorems below: observation functions over the
embedded operations, persisted-row constructors, and the concrete stores
and environments at which witnesses and the counterexample are taken. -/

/-- The list `[v, v + 1, ..., v + m - 1]` of consecutive integers. -/
def consecFrom (v : Int) (m : Nat) : List Int :=
  (List.range m).map (fun (i : Nat) => v + (i : Int))

/-- Pre-update versions observed by the successful writes in a sequence of
version-gated `UpdateQuantity` calls on the same `(userId, productId)`,
each call carrying its own target quantity and supplied version, applied in
order against the shared store (DynamoDB linearises conditional writes, so
any interleaving of concurrent writers is such a sequence). -/
def observedPreVersions (s : Store) (uid pid : String) : List (Int × Int) → List Int
  | [] => []
  | (q, v) :: rest =>
    match CartRepo.updateQuantity s uid pid q v with
    | .ok s' => v :: observedPreVersions s' uid pid rest
    | .error _ => observedPreVersions s uid pid rest

/-- Concrete cart line used by the witnesses. -/
def wLine : CartItem :=
  { userId := "u", productId := "p", productName := "n",
    price := 10, quantity := 2, version := 4 }

/-- Concrete one-line store used by the witnesses. -/
def wStore : Store :=
  { carts := [wLine], products := [], orders := [], orderItems := [] }

/-- Concrete fresh cart line used by the witnesses. -/
def wNewLine : CartItem :=
  { userId := "u", productId := "q", productName := "m",
    price := 3, quantity := 1, version := 0 }

/-- The quantity a fresh `AddItem` would be merged with: the quantity of the
existing cart line, or 0 when there is none. -/
def existingQuantity (s : Store) (uid pid : String) : Int :=
  match lookupList cartKey (uid, pid) s.carts with
  | some c => c.quantity
  | none => 0

/-- Result of merging quantity `qty` into an existing cart line through the
version-gated update: same line with the summed quantity and the version
bumped by 1. -/
def mergedLine (existing : CartItem) (qty : Int) : CartItem :=
  { existing with quantity := qty + existing.quantity, version := existing.version + 1 }

/-- The cart line a fresh `AddItem` creates: version 1, quantity as
requested, name and unit price snapshotted from the product. -/
def freshLine (uid pid : String) (product : Product) (qty : Int) : CartItem :=
  { userId := uid, productId := pid, productName := product.name,
    price := product.price, quantity := qty, version := 1 }

/-- Concrete product row used by the witnesses. -/
def wProduct : Product :=
  { id := "p", name := "n", price := 10, stock := 9, stockAttr := none }

/-- Concrete store with one cart line and one product, used by witnesses. -/
def wStoreP : Store :=
  { carts := [wLine], products := [wProduct], orders := [], orderItems := [] }

/-- Concrete low-stock product used by the C7 witness (the spec scenario:
`AddItem(quantity = 2)` on an empty cart with stock 1). -/
def wProductLow : Product :=
  { id := "p", name := "n", price := 10, stock := 1, stockAttr := none }

/-- Concrete store with an empty cart and a low-stock product. -/
def wStoreLow : Store :=
  { carts := [], products := [wProductLow], orders := [], orderItems := [] }

/-- Concrete store for the C4 counterexample: the stored line's version
(100) never matches any attempted version, so every conditional write
fails. -/
def cxWriteStore : Store :=
  { carts := [{ userId := "u", productId := "p", productName := "n",
                price := 1, quantity := 1, version := 100 }],
    products := [], orders := [], orderItems := [] }

/-- Store whose cart line has the given version, seen by a re-read. -/
def cxReadStore (v : Int) : Store :=
  { carts := [{ userId := "u", productId := "p", productName := "n",
                price := 1, quantity := 1, version := v }],
    products := [], orders := [], orderItems := [] }

/-- Write-environment of the counterexample: every attempt sees the
version-100 line. -/
def cxWenv : Nat → Store := fun _ => cxWriteStore

/-- Read-environment of the counterexample: the first two re-reads see the
line (versions 2 and 3), the third re-read finds it deleted. -/
def cxRenv : Nat → Store := fun k =>
  if k = 0 then cxReadStore 2
  else if k = 1 then cxReadStore 3
  else { carts := [], products := [], orders := [], orderItems := [] }

/-- Read-environment for the C4 witness: every re-read sees the line at
version 2, so all re-reads succeed and the loop exhausts its 3 attempts. -/
def cxRenvOk : Nat → Store := fun _ => cxReadStore 2

/-- Witness for C10 at a concrete input (re-read after the first mismatch
fails with `ErrCartItemNotFound`, which is returned as-is). -/
def cxRenvGone : Nat → Store :=
  fun _ => { carts := [], products := [], orders := [], orderItems := [] }

/-- Concrete store for the C2 witness: one cart line asking quantity 3 of a
product with stock 1. -/
def wStoreShort : Store :=
  { carts := [{ userId := "u", productId := "p", productName := "n",
                price := 10, quantity := 3, version := 1 }],
    products := [wProductLow], orders := [], orderItems := [] }

/-- Concrete cart line (quantity 3), matching the spec checkout scenario. -/
def wLine3 : CartItem :=
  { userId := "u", productId := "p", productName := "n",
    price := 10, quantity := 3, version := 1 }

/-- Concrete program-written product row: persisted stock 5, and (as on
every program-written row) no `Stock` attribute. -/
def wProduct5 : Product :=
  { id := "p", name := "n", price := 10, stock := 5, stockAttr := none }

/-- Concrete store for the checkout scenario of the spec: a one-line cart
asking quantity 3 of a product whose persisted stock is 5. -/
def wStore5 : Store :=
  { carts := [wLine3], products := [wProduct5], orders := [], orderItems := [] }

/-- The checkout transaction built for the one-line cart of `wStore5`. -/
def wOps5 : List TxOp :=
  buildTransactItems "o1" (buildOrder "u" [wLine3]) (buildOrderItems [wLine3]) [wLine3]

/-! ### Association-list lemmas -/

theorem lookupList_eq_some_key {α κ : Type} [DecidableEq κ] (key : α → κ) (k : κ)
    (l : List α) (x : α) (h : lookupList key k l = some x) : key x = k := by
  induction l with
  | nil => simp [lookupList] at h
  | cons y ys ih =>
    by_cases hy : key y = k
    · rw [lookupList, if_pos hy] at h
      injection h with h
      subst h; exact hy
    · rw [lookupList, if_neg hy] at h
      exact ih h

theorem lookup_putList {α κ : Type} [DecidableEq κ] (key : α → κ) (x : α)
    (l : List α) (k : κ) :
    lookupList key k (putList key x l) =
      if key x = k then some x else lookupList key k l := by
  induction l with
  | nil => simp [putList, lookupList]
  | cons y ys ih =>
    by_cases hy : key y = key x
    · by_cases hk : key x = k
      · simp [putList, lookupList, hy, hk]
      · have hyk : ¬ key y = k := fun h => hk (hy.symm.trans h)
        simp [putList, lookupList, hy, hk, hyk]
    · by_cases hyk : key y = k
      · have hk : ¬ key x = k := fun h => hy (hyk.trans h.symm)
        have hk2 : ¬ k = key x := fun h => hk h.symm
        simp [putList, lookupList, hy, hk, hk2, hyk]
      · simp [putList, lookupList, hy, hyk, ih]

theorem putList_of_forall_ne {α κ : Type} [DecidableEq κ] (key : α → κ) (x : α)
    (l : List α) (h : ∀ y ∈ l, key y ≠ key x) : putList key x l = l ++ [x] := by
  induction l with
  | nil => rw [putList]; rfl
  | cons y ys ih =>
    have hy : key y ≠ key x := h y (by simp)
    rw [putList, if_neg hy, ih (fun z hz => h z (by simp [hz])), List.cons_append]

theorem lookup_eraseList {α κ : Type} [DecidableEq κ] (key : α → κ) (k k' : κ)
    (l : List α) :
    lookupList key k (eraseList key k' l) =
      if k = k' then none else lookupList key k l := by
  induction l with
  | nil => simp [eraseList, lookupList]
  | cons y ys ih =>
    by_cases hy : key y = k'
    · by_cases hk : k = k'
      · subst hk
        simp [eraseList, lookupList, hy, ih]
      · have hyk : ¬ key y = k := fun h => hk (h.symm.trans hy)
        have hk3 : ¬ k' = k := fun h => hk h.symm
        simp [eraseList, lookupList, hy, hk, hk3, hyk, ih]
    · by_cases hyk : key y = k
      · have hk : ¬ k = k' := fun h => hy (hyk.trans h)
        simp [eraseList, lookupList, hy, hk, hyk]
      · simp [eraseList, lookupList, hy, hyk, ih]

/-! ### Cart repository lemmas -/

theorem updateQuantity_ok_iff (s : Store) (uid pid : String) (qty ver : Int)
    (s' : Store) :
    CartRepo.updateQuantity s uid pid qty ver = .ok s' ↔
    ∃ c, lookupList cartKey (uid, pid) s.carts = some c ∧ c.version = ver ∧
      s' = { s with carts :=
              putList cartKey { c with quantity := qty, version := ver + 1 } s.carts } := by
  unfold CartRepo.updateQuantity
  cases h : lookupList cartKey (uid, pid) s.carts with
  | none => simp
  | some c =>
    by_cases hv : c.version = ver
    · simp [hv, eq_comm]
    · simp [hv]

theorem updateQuantity_error_eq (s : Store) (uid pid : String) (qty ver : Int)
    (e : Err) (h : CartRepo.updateQuantity s uid pid qty ver = .error e) :
    e = .versionMismatch := by
  unfold CartRepo.updateQuantity at h
  split at h
  · injection h with h
    exact h.symm
  · split at h
    · exact absurd h (by simp)
    · injection h with h
      exact h.symm

theorem getItem_error_eq (s : Store) (uid pid : String) (e : Err)
    (h : CartRepo.getItem s uid pid = .error e) : e = .cartItemNotFound := by
  unfold CartRepo.getItem at h
  split at h
  · exact absurd h (by simp)
  · injection h with h
    exact h.symm

/-! ### Claim C3 -/

theorem consecFrom_succ (v : Int) (m : Nat) :
    consecFrom v (m + 1) = v :: consecFrom (v + 1) m := by
  unfold consecFrom
  rw [List.range_succ_eq_map, List.map_cons, List.map_map]
  refine congrArg₂ _ (by simp) ?_
  apply List.map_congr_left
  intro i _
  simp only [Function.comp_apply]
  push_cast
  ring

theorem consecFrom_nodup (v : Int) (m : Nat) : (consecFrom v m).Nodup := by
  refine List.Nodup.map ?_ (List.nodup_range m)
  intro a b hab
  simp only at hab
  omega

theorem observed_consecutive (uid pid : String) :
    ∀ (ops : List (Int × Int)) (s : Store) (c : CartItem),
      lookupList cartKey (uid, pid) s.carts = some c →
      ∃ m, observedPreVersions s uid pid ops = consecFrom c.version m := by
  intro ops
  induction ops with
  | nil => intro s c _; exact ⟨0, by simp [observedPreVersions, consecFrom]⟩
  | cons op rest ih =>
    intro s c hc
    obtain ⟨q, v⟩ := op
    cases hu : CartRepo.updateQuantity s uid pid q v with
    | error e =>
      obtain ⟨m, hm⟩ := ih s c hc
      exact ⟨m, by simp [observedPreVersions, hu, hm]⟩
    | ok s' =>
      obtain ⟨c', hc', hver, hs'⟩ := (updateQuantity_ok_iff s uid pid q v s').1 hu
      rw [hc] at hc'
      injection hc' with hcc
      subst hcc
      have hkey : cartKey c = (uid, pid) :=
        lookupList_eq_some_key cartKey (uid, pid) s.carts c hc
      have hlook : lookupList cartKey (uid, pid) s'.carts =
          some { c with quantity := q, version := v + 1 } := by
        rw [hs']
        have hk2 : cartKey { c with quantity := q, version := v + 1 } = (uid, pid) := hkey
        simp [lookup_putList, hk2]
      obtain ⟨m, hm⟩ := ih s' { c with quantity := q, version := v + 1 } hlook
      subst hver
      refine ⟨m + 1, ?_⟩
      rw [consecFrom_succ]
      simp [observedPreVersions, hu, hm]

/-- C3: creation writes version 1 (`CartRepository.Add`); a version-gated
write (`CartRepository.UpdateQuantity`) succeeds exactly when the supplied
version equals the stored one, and on success stores exactly that value
plus 1; consequently, over any sequence of gated writes on the same
`(userId, productId)`, the observed pre-update versions are consecutive
(each successful write increments by 1) and pairwise distinct. -/
theorem cart_version_optimistic_lock (s : Store) (uid pid : String)
    (qty ver : Int) (c item : CartItem) (ops : List (Int × Int))
    (hc : lookupList cartKey (uid, pid) s.carts = some c) :
    ((CartRepo.add s item).1.version = 1 ∧
     lookupList cartKey (item.userId, item.productId) (CartRepo.add s item).2.carts =
       some (CartRepo.add s item).1) ∧
    (∀ s', CartRepo.updateQuantity s uid pid qty ver = .ok s' →
       c.version = ver ∧
       lookupList cartKey (uid, pid) s'.carts =
         some { c with quantity := qty, version := ver + 1 }) ∧
    (c.version = ver → ∃ s', CartRepo.updateQuantity s uid pid qty ver = .ok s') ∧
    (∃ m, observedPreVersions s uid pid ops = consecFrom c.version m) ∧
    (observedPreVersions s uid pid ops).Nodup := by
  refine ⟨⟨rfl, ?_⟩, ?_, ?_, ?_, ?_⟩
  · have hk : cartKey { item with version := 1 } = (item.userId, item.productId) := rfl
    simp [CartRepo.add, lookup_putList, hk]
  · intro s' hok
    obtain ⟨c', hc', hver, hs'⟩ := (updateQuantity_ok_iff s uid pid qty ver s').1 hok
    rw [hc] at hc'
    injection hc' with hcc
    subst hcc
    refine ⟨hver, ?_⟩
    rw [hs']
    have hkey : cartKey c = (uid, pid) :=
      lookupList_eq_some_key cartKey (uid, pid) s.carts c hc
    have hk2 : cartKey { c with quantity := qty, version := ver + 1 } = (uid, pid) := hkey
    simp [lookup_putList, hk2]
  · intro hver
    exact ⟨_, (updateQuantity_ok_iff s uid pid qty ver _).2 ⟨c, hc, hver, rfl⟩⟩
  · exact observed_consecutive uid pid ops s c hc
  · obtain ⟨m, hm⟩ := observed_consecutive uid pid ops s c hc
    rw [hm]
    exact consecFrom_nodup c.version m

/-- Witness for C3 at a concrete input. -/
theorem cart_version_optimistic_lock_witness :
    lookupList cartKey ("u", "p") wStore.carts = some wLine ∧
    (((CartRepo.add wStore wNewLine).1.version = 1 ∧
      lookupList cartKey (wNewLine.userId, wNewLine.productId)
        (CartRepo.add wStore wNewLine).2.carts = some (CartRepo.add wStore wNewLine).1) ∧
     (∀ s', CartRepo.updateQuantity wStore "u" "p" 7 4 = .ok s' →
        wLine.version = 4 ∧
        lookupList cartKey ("u", "p") s'.carts =
          some { wLine with quantity := 7, version := 5 }) ∧
     (wLine.version = 4 → ∃ s', CartRepo.updateQuantity wStore "u" "p" 7 4 = .ok s') ∧
     (∃ m, observedPreVersions wStore "u" "p" [(7, 4), (9, 4), (9, 5)] =
        consecFrom wLine.version m) ∧
     (observedPreVersions wStore "u" "p" [(7, 4), (9, 4), (9, 5)]).Nodup) :=
  ⟨by decide,
   cart_version_optimistic_lock wStore "u" "p" 7 4 wLine wNewLine
     [(7, 4), (9, 4), (9, 5)] (by decide)⟩

/-! ### Key-uniqueness lemmas -/

theorem mem_map_putList {α κ : Type} [DecidableEq κ] (key : α → κ) (x : α)
    (l : List α) (a : κ) (h : a ∈ (putList key x l).map key) :
    a = key x ∨ a ∈ l.map key := by
  induction l with
  | nil => simp [putList] at h; exact Or.inl h
  | cons y ys ih =>
    by_cases hy : key y = key x
    · rw [putList, if_pos hy] at h
      simp at h
      rcases h with h | h
      · exact Or.inl h
      · exact Or.inr (by simp [h])
    · rw [putList, if_neg hy] at h
      simp at h
      rcases h with h | h
      · exact Or.inr (by simp [h])
      · rcases ih (by simpa using h) with h' | h'
        · exact Or.inl h'
        · exact Or.inr (by simp [h'] )

theorem nodup_putList {α κ : Type} [DecidableEq κ] (key : α → κ) (x : α)
    (l : List α) (h : (l.map key).Nodup) : ((putList key x l).map key).Nodup := by
  induction l with
  | nil => simp [putList]
  | cons y ys ih =>
    rw [List.map_cons, List.nodup_cons] at h
    by_cases hy : key y = key x
    · rw [putList, if_pos hy, List.map_cons, List.nodup_cons]
      exact ⟨fun hm => h.1 (hy ▸ hm), h.2⟩
    · rw [putList, if_neg hy, List.map_cons, List.nodup_cons]
      refine ⟨fun hm => ?_, ih h.2⟩
      rcases mem_map_putList key x ys (key y) hm with h' | h'
      · exact hy h'
      · exact h.1 h'

theorem countP_eq_one_of_nodup_lookup {α κ : Type} [DecidableEq κ] (key : α → κ)
    (l : List α) (k : κ) (x : α) (hn : (l.map key).Nodup)
    (hl : lookupList key k l = some x) :
    l.countP (fun y => decide (key y = k)) = 1 := by
  induction l with
  | nil => simp [lookupList] at hl
  | cons y ys ih =>
    rw [List.map_cons, List.nodup_cons] at hn
    by_cases hy : key y = k
    · rw [List.countP_cons_of_pos _ _ (by simp [hy])]
      have hz : ys.countP (fun y => decide (key y = k)) = 0 := by
        rw [List.countP_eq_zero]
        intro a ha
        simp only [decide_eq_true_eq]
        intro hak
        exact hn.1 (hy ▸ hak ▸ List.mem_map_of_mem key ha)
      omega
    · rw [lookupList, if_neg hy] at hl
      rw [List.countP_cons_of_neg _ _ (by simp [hy])]
      exact ih hn.2 hl

/-! ### Sequential retry-loop lemmas -/

theorem retry_first_try_ok (s : Store) (uid pid : String) (qty ver : Int)
    (s' : Store) (h : CartRepo.updateQuantity s uid pid qty ver = .ok s') :
    CartService.updateQuantityWithRetry s uid pid qty ver =
      (.ok (), s', [.condUpdateCart uid pid qty ver]) := by
  unfold CartService.updateQuantityWithRetry maxRetries
  rw [show (3 : Nat) = 2 + 1 from rfl, CartService.retryLoop, h]

/-! ### Claim C6 -/

/-- C6: with sufficient stock, adding quantity `qty` of a product already in
the cart yields a single cart line (counted once) holding the summed
quantity, updated through the optimistic-update routine starting from the
existing line's version (visible as the conditional write in the trace);
adding a product not yet in the cart creates a line with version 1 and the
product's current price as the snapshot unit price. -/
theorem addItem_merge_and_create (s : Store) (uid pid : String) (qty : Int)
    (product : Product) (hq : 0 < qty)
    (hprod : lookupList productKey pid s.products = some product) :
    (∀ existing, lookupList cartKey (uid, pid) s.carts = some existing →
       qty + existing.quantity ≤ product.stock →
       (s.carts.map cartKey).Nodup →
       (CartService.addItem s uid pid qty).1 = .ok (mergedLine existing qty) ∧
       lookupList cartKey (uid, pid) (CartService.addItem s uid pid qty).2.1.carts =
         some (mergedLine existing qty) ∧
       (CartService.addItem s uid pid qty).2.1.carts.countP
         (fun c => decide (cartKey c = (uid, pid))) = 1 ∧
       Ev.condUpdateCart uid pid (qty + existing.quantity) existing.version ∈
         (CartService.addItem s uid pid qty).2.2) ∧
    (lookupList cartKey (uid, pid) s.carts = none →
       qty ≤ product.stock →
       (CartService.addItem s uid pid qty).1 = .ok (freshLine uid pid product qty) ∧
       lookupList cartKey (uid, pid) (CartService.addItem s uid pid qty).2.1.carts =
         some (freshLine uid pid product qty)) := by
  have hp : ProductRepo.getByID s pid = .ok product := by
    unfold ProductRepo.getByID; rw [hprod]
  constructor
  · intro existing hc hstock hwf
    have hg : CartRepo.getItem s uid pid = .ok existing := by
      unfold CartRepo.getItem; rw [hc]
    have hkey : cartKey existing = (uid, pid) :=
      lookupList_eq_some_key cartKey (uid, pid) s.carts existing hc
    have hupd : CartRepo.updateQuantity s uid pid (qty + existing.quantity)
        existing.version =
        .ok { s with carts := putList cartKey (mergedLine existing qty) s.carts } :=
      (updateQuantity_ok_iff s uid pid (qty + existing.quantity) existing.version _).2
        ⟨existing, hc, rfl, rfl⟩
    have hretry := retry_first_try_ok s uid pid (qty + existing.quantity)
      existing.version _ hupd
    have hk2 : cartKey (mergedLine existing qty) = (uid, pid) := hkey
    have hlookU : lookupList cartKey (uid, pid)
        (putList cartKey (mergedLine existing qty) s.carts) =
        some (mergedLine existing qty) := by
      rw [lookup_putList, if_pos hk2]
    have hgU : CartRepo.getItem
        { s with carts := putList cartKey (mergedLine existing qty) s.carts } uid pid =
        .ok (mergedLine existing qty) := by
      unfold CartRepo.getItem
      rw [hlookU]
    refine ⟨?_, ?_, ?_, ?_⟩ <;>
      simp [CartService.addItem, hp, hg, not_le.mpr hq, not_lt.mpr hstock,
        hretry, hgU, hlookU]
    exact countP_eq_one_of_nodup_lookup cartKey _ (uid, pid) _
      (nodup_putList cartKey _ s.carts hwf) hlookU
  · intro hnone hstock
    have hg : CartRepo.getItem s uid pid = .error .cartItemNotFound := by
      unfold CartRepo.getItem; rw [hnone]
    have hk : cartKey (freshLine uid pid product qty) = (uid, pid) := rfl
    constructor <;>
      simp [CartService.addItem, hp, hg, not_le.mpr hq, not_lt.mpr hstock,
        CartRepo.add, freshLine, lookup_putList, cartKey, hk]

/-- Witness for C6 at a concrete input. -/
theorem addItem_merge_and_create_witness :
    ((0 : Int) < 2 ∧ lookupList productKey "p" wStoreP.products = some wProduct) ∧
    ((∀ existing, lookupList cartKey ("u", "p") wStoreP.carts = some existing →
        2 + existing.quantity ≤ wProduct.stock →
        (wStoreP.carts.map cartKey).Nodup →
        (CartService.addItem wStoreP "u" "p" 2).1 = .ok (mergedLine existing 2) ∧
        lookupList cartKey ("u", "p") (CartService.addItem wStoreP "u" "p" 2).2.1.carts =
          some (mergedLine existing 2) ∧
        (CartService.addItem wStoreP "u" "p" 2).2.1.carts.countP
          (fun c => decide (cartKey c = ("u", "p"))) = 1 ∧
        Ev.condUpdateCart "u" "p" (2 + existing.quantity) existing.version ∈
          (CartService.addItem wStoreP "u" "p" 2).2.2) ∧
     (lookupList cartKey ("u", "p") wStoreP.carts = none →
        (2 : Int) ≤ wProduct.stock →
        (CartService.addItem wStoreP "u" "p" 2).1 = .ok (freshLine "u" "p" wProduct 2) ∧
        lookupList cartKey ("u", "p") (CartService.addItem wStoreP "u" "p" 2).2.1.carts =
          some (freshLine "u" "p" wProduct 2))) :=
  ⟨⟨by decide, by decide⟩,
   addItem_merge_and_create wStoreP "u" "p" 2 wProduct (by decide) (by decide)⟩

/-! ### Claim C7 -/

/-- C7: for `AddItem` with positive quantity on an existing product,
`InsufficientStock` is returned exactly when the product's stock is below
the requested quantity plus the already-carted quantity; on that failure
the store is byte-for-byte unchanged and only reads were performed (no
stock is reserved), and with sufficient stock the call succeeds. -/
theorem addItem_insufficient_stock_iff (s : Store) (uid pid : String) (qty : Int)
    (product : Product) (hq : 0 < qty)
    (hprod : lookupList productKey pid s.products = some product) :
    (product.stock < qty + existingQuantity s uid pid →
       CartService.addItem s uid pid qty =
         (.error .insufficientStockCart, s, [.getProduct pid, .getCartItem uid pid]) ∧
       ∀ ev ∈ (CartService.addItem s uid pid qty).2.2, isWriteEv ev = false) ∧
    (qty + existingQuantity s uid pid ≤ product.stock →
       ∃ item, (CartService.addItem s uid pid qty).1 = .ok item) := by
  have hp : ProductRepo.getByID s pid = .ok product := by
    unfold ProductRepo.getByID; rw [hprod]
  constructor
  · intro hlt
    have hmain : CartService.addItem s uid pid qty =
        (.error .insufficientStockCart, s, [.getProduct pid, .getCartItem uid pid]) := by
      cases hcl : lookupList cartKey (uid, pid) s.carts with
      | some c =>
        have hg : CartRepo.getItem s uid pid = .ok c := by
          unfold CartRepo.getItem; rw [hcl]
        have hex : existingQuantity s uid pid = c.quantity := by
          unfold existingQuantity; rw [hcl]
        rw [hex] at hlt
        simp [CartService.addItem, hp, hg, not_le.mpr hq, hlt]
      | none =>
        have hg : CartRepo.getItem s uid pid = .error .cartItemNotFound := by
          unfold CartRepo.getItem; rw [hcl]
        have hex : existingQuantity s uid pid = 0 := by
          unfold existingQuantity; rw [hcl]
        rw [hex, add_zero] at hlt
        simp [CartService.addItem, hp, hg, not_le.mpr hq, hlt]
    refine ⟨hmain, ?_⟩
    rw [hmain]
    intro ev hev
    simp at hev
    rcases hev with h | h <;> subst h <;> rfl
  · intro hle
    cases hcl : lookupList cartKey (uid, pid) s.carts with
    | some c =>
      have hg : CartRepo.getItem s uid pid = .ok c := by
        unfold CartRepo.getItem; rw [hcl]
      have hex : existingQuantity s uid pid = c.quantity := by
        unfold existingQuantity; rw [hcl]
      rw [hex] at hle
      have hupd : CartRepo.updateQuantity s uid pid (qty + c.quantity) c.version =
          .ok { s with carts := putList cartKey (mergedLine c qty) s.carts } :=
        (updateQuantity_ok_iff s uid pid (qty + c.quantity) c.version _).2
          ⟨c, hcl, rfl, rfl⟩
      have hretry := retry_first_try_ok s uid pid (qty + c.quantity) c.version _ hupd
      have hk2 : cartKey (mergedLine c qty) = (uid, pid) :=
        lookupList_eq_some_key cartKey (uid, pid) s.carts c hcl
      have hgU : CartRepo.getItem
          { s with carts := putList cartKey (mergedLine c qty) s.carts } uid pid =
          .ok (mergedLine c qty) := by
        unfold CartRepo.getItem
        rw [lookup_putList, if_pos hk2]
      exact ⟨mergedLine c qty,
        by simp [CartService.addItem, hp, hg, not_le.mpr hq, not_lt.mpr hle,
          hretry, hgU]⟩
    | none =>
      have hg : CartRepo.getItem s uid pid = .error .cartItemNotFound := by
        unfold CartRepo.getItem; rw [hcl]
      have hex : existingQuantity s uid pid = 0 := by
        unfold existingQuantity; rw [hcl]
      rw [hex, add_zero] at hle
      exact ⟨freshLine uid pid product qty,
        by simp [CartService.addItem, hp, hg, not_le.mpr hq, not_lt.mpr hle,
          CartRepo.add, freshLine]⟩

/-- Witness for C7 at a concrete input. -/
theorem addItem_insufficient_stock_iff_witness :
    ((0 : Int) < 2 ∧ lookupList productKey "p" wStoreLow.products = some wProductLow) ∧
    ((wProductLow.stock < 2 + existingQuantity wStoreLow "u" "p" →
       CartService.addItem wStoreLow "u" "p" 2 =
         (.error .insufficientStockCart, wStoreLow,
          [.getProduct "p", .getCartItem "u" "p"]) ∧
       ∀ ev ∈ (CartService.addItem wStoreLow "u" "p" 2).2.2, isWriteEv ev = false) ∧
     (2 + existingQuantity wStoreLow "u" "p" ≤ wProductLow.stock →
       ∃ item, (CartService.addItem wStoreLow "u" "p" 2).1 = .ok item)) :=
  ⟨⟨by decide, by decide⟩,
   addItem_insufficient_stock_iff wStoreLow "u" "p" 2 wProductLow (by decide) (by decide)⟩

/-! ### Retry-loop step lemmas (environment model) -/

theorem retryLoopEnv_zero (wenv renv : Nat → Store) (uid pid : String)
    (qty : Int) (i : Nat) (ver : Int) :
    retryLoopEnv wenv renv uid pid qty i 0 ver = (.error .optimisticLockRetry, []) := rfl

theorem retryLoopEnv_step_ok (wenv renv : Nat → Store) (uid pid : String)
    (qty : Int) (i n : Nat) (ver : Int) (s' : Store)
    (hu : CartRepo.updateQuantity (wenv i) uid pid qty ver = .ok s') :
    retryLoopEnv wenv renv uid pid qty i (n + 1) ver =
      (.ok (), [.condUpdateCart uid pid qty ver]) := by
  simp [retryLoopEnv, hu]

theorem retryLoopEnv_step_mismatch (wenv renv : Nat → Store) (uid pid : String)
    (qty : Int) (i n : Nat) (ver : Int) (item : CartItem)
    (hu : CartRepo.updateQuantity (wenv i) uid pid qty ver = .error .versionMismatch)
    (hr : CartRepo.getItem (renv i) uid pid = .ok item) :
    retryLoopEnv wenv renv uid pid qty i (n + 1) ver =
      ((retryLoopEnv wenv renv uid pid qty (i + 1) n item.version).1,
       .condUpdateCart uid pid qty ver :: .getCartItem uid pid ::
         (retryLoopEnv wenv renv uid pid qty (i + 1) n item.version).2) := by
  simp [retryLoopEnv, hu, hr]

theorem retryLoopEnv_step_readerr (wenv renv : Nat → Store) (uid pid : String)
    (qty : Int) (i n : Nat) (ver : Int) (e' : Err)
    (hu : CartRepo.updateQuantity (wenv i) uid pid qty ver = .error .versionMismatch)
    (hr : CartRepo.getItem (renv i) uid pid = .error e') :
    retryLoopEnv wenv renv uid pid qty i (n + 1) ver =
      (.error e', [.condUpdateCart uid pid qty ver, .getCartItem uid pid]) := by
  simp [retryLoopEnv, hu, hr]

theorem retryLoopEnv_writeCount (wenv renv : Nat → Store) (uid pid : String)
    (qty : Int) :
    ∀ (fuel i : Nat) (ver : Int),
      ((retryLoopEnv wenv renv uid pid qty i fuel ver).2.countP isCondWrite) ≤ fuel := by
  intro fuel
  induction fuel with
  | zero => intro i ver; simp [retryLoopEnv_zero]
  | succ n ih =>
    intro i ver
    cases hu : CartRepo.updateQuantity (wenv i) uid pid qty ver with
    | ok s =>
      rw [retryLoopEnv_step_ok wenv renv uid pid qty i n ver s hu]
      simp [isCondWrite]
    | error e =>
      have he := updateQuantity_error_eq (wenv i) uid pid qty ver e hu
      subst he
      cases hr : CartRepo.getItem (renv i) uid pid with
      | ok item =>
        rw [retryLoopEnv_step_mismatch wenv renv uid pid qty i n ver item hu hr]
        have := ih (i + 1) item.version
        simp only [List.countP_cons, isCondWrite]
        simp
        omega
      | error e' =>
        rw [retryLoopEnv_step_readerr wenv renv uid pid qty i n ver e' hu hr]
        simp [isCondWrite]

theorem retryLoopEnv_writes_shape (wenv renv : Nat → Store) (uid pid : String)
    (qty : Int) :
    ∀ (fuel i : Nat) (ver : Int) (u p : String) (q v : Int),
      Ev.condUpdateCart u p q v ∈ (retryLoopEnv wenv renv uid pid qty i fuel ver).2 →
      u = uid ∧ p = pid ∧ q = qty := by
  intro fuel
  induction fuel with
  | zero => intro i ver u p q v hm; simp [retryLoopEnv_zero] at hm
  | succ n ih =>
    intro i ver u p q v hm
    cases hu : CartRepo.updateQuantity (wenv i) uid pid qty ver with
    | ok s =>
      rw [retryLoopEnv_step_ok wenv renv uid pid qty i n ver s hu] at hm
      simp at hm
      exact ⟨hm.1, hm.2.1, hm.2.2.1⟩
    | error e =>
      have he := updateQuantity_error_eq (wenv i) uid pid qty ver e hu
      subst he
      cases hr : CartRepo.getItem (renv i) uid pid with
      | ok item =>
        rw [retryLoopEnv_step_mismatch wenv renv uid pid qty i n ver item hu hr] at hm
        simp at hm
        rcases hm with ⟨h1, h2, h3, _⟩ | hm
        · exact ⟨h1, h2, h3⟩
        · exact ih (i + 1) item.version u p q v hm
      | error e' =>
        rw [retryLoopEnv_step_readerr wenv renv uid pid qty i n ver e' hu hr] at hm
        simp at hm
        exact ⟨hm.1, hm.2.1, hm.2.2.1⟩

theorem retryLoopEnv_ok_write_succeeded (wenv renv : Nat → Store) (uid pid : String)
    (qty : Int) :
    ∀ (fuel i : Nat) (ver : Int),
      (retryLoopEnv wenv renv uid pid qty i fuel ver).1 = .ok () →
      ∃ k v s', CartRepo.updateQuantity (wenv k) uid pid qty v = .ok s' := by
  intro fuel
  induction fuel with
  | zero => intro i ver h; simp [retryLoopEnv_zero] at h
  | succ n ih =>
    intro i ver h
    cases hu : CartRepo.updateQuantity (wenv i) uid pid qty ver with
    | ok s => exact ⟨i, ver, s, hu⟩
    | error e =>
      have he := updateQuantity_error_eq (wenv i) uid pid qty ver e hu
      subst he
      cases hr : CartRepo.getItem (renv i) uid pid with
      | ok item =>
        rw [retryLoopEnv_step_mismatch wenv renv uid pid qty i n ver item hu hr] at h
        exact ih (i + 1) item.version h
      | error e' =>
        rw [retryLoopEnv_step_readerr wenv renv uid pid qty i n ver e' hu hr] at h
        simp at h

/-! ### Claim C4 -/

/-- Counterexample to C4 as stated: a run in which all 3 conditional-write
attempts fail with a version mismatch (at the supplied then re-read
versions 1, 2, 3), yet the routine returns the re-read's
`ErrCartItemNotFound` — not `OptimisticLockExhausted` — because the re-read
after the third failed attempt itself fails. -/
theorem retry_exhaustion_counterexample :
    CartRepo.updateQuantity (cxWenv 0) "u" "p" 5 1 = .error .versionMismatch ∧
    CartRepo.updateQuantity (cxWenv 1) "u" "p" 5 2 = .error .versionMismatch ∧
    CartRepo.updateQuantity (cxWenv 2) "u" "p" 5 3 = .error .versionMismatch ∧
    (updateQuantityWithRetryEnv cxWenv cxRenv "u" "p" 5 1).2 =
      [.condUpdateCart "u" "p" 5 1, .getCartItem "u" "p",
       .condUpdateCart "u" "p" 5 2, .getCartItem "u" "p",
       .condUpdateCart "u" "p" 5 3, .getCartItem "u" "p"] ∧
    (updateQuantityWithRetryEnv cxWenv cxRenv "u" "p" 5 1).1 ≠
      .error .optimisticLockRetry ∧
    (updateQuantityWithRetryEnv cxWenv cxRenv "u" "p" 5 1).1 =
      .error .cartItemNotFound := by
  decide

/-- C4 (amended): the optimistic-update routine makes at most 3 conditional
write attempts; every attempt carries the same line key and target
quantity; an `ok` result can only come from a successful conditional write
(never silent success); and when all 3 attempts fail with a version
mismatch — each retried at the previously re-read live version — and every
re-read (including the one after the final failed attempt) succeeds, it
fails with `OptimisticLockExhausted`. -/
theorem retry_bounded_amended (wenv renv : Nat → Store) (uid pid : String)
    (qty v0 : Int) :
    ((updateQuantityWithRetryEnv wenv renv uid pid qty v0).2.countP isCondWrite
       ≤ maxRetries) ∧
    (∀ u p q v, Ev.condUpdateCart u p q v ∈
        (updateQuantityWithRetryEnv wenv renv uid pid qty v0).2 →
       u = uid ∧ p = pid ∧ q = qty) ∧
    ((updateQuantityWithRetryEnv wenv renv uid pid qty v0).1 = .ok () →
       ∃ k v s', CartRepo.updateQuantity (wenv k) uid pid qty v = .ok s') ∧
    (∀ it0 it1 it2,
       CartRepo.updateQuantity (wenv 0) uid pid qty v0 = .error .versionMismatch →
       CartRepo.getItem (renv 0) uid pid = .ok it0 →
       CartRepo.updateQuantity (wenv 1) uid pid qty it0.version =
         .error .versionMismatch →
       CartRepo.getItem (renv 1) uid pid = .ok it1 →
       CartRepo.updateQuantity (wenv 2) uid pid qty it1.version =
         .error .versionMismatch →
       CartRepo.getItem (renv 2) uid pid = .ok it2 →
       updateQuantityWithRetryEnv wenv renv uid pid qty v0 =
         (.error .optimisticLockRetry,
          [.condUpdateCart uid pid qty v0, .getCartItem uid pid,
           .condUpdateCart uid pid qty it0.version, .getCartItem uid pid,
           .condUpdateCart uid pid qty it1.version, .getCartItem uid pid])) := by
  refine ⟨?_, ?_, ?_, ?_⟩
  · exact retryLoopEnv_writeCount wenv renv uid pid qty maxRetries 0 v0
  · intro u p q v hm
    exact retryLoopEnv_writes_shape wenv renv uid pid qty maxRetries 0 v0 u p q v hm
  · intro h
    exact retryLoopEnv_ok_write_succeeded wenv renv uid pid qty maxRetries 0 v0 h
  · intro it0 it1 it2 hu0 hr0 hu1 hr1 hu2 hr2
    unfold updateQuantityWithRetryEnv maxRetries
    rw [show (3 : Nat) = 2 + 1 from rfl,
      retryLoopEnv_step_mismatch wenv renv uid pid qty 0 2 v0 it0 hu0 hr0,
      show (2 : Nat) = 1 + 1 from rfl,
      retryLoopEnv_step_mismatch wenv renv uid pid qty 1 1 it0.version it1 hu1 hr1,
      show (1 : Nat) = 0 + 1 from rfl,
      retryLoopEnv_step_mismatch wenv renv uid pid qty 2 0 it1.version it2 hu2 hr2,
      retryLoopEnv_zero]

/-- Witness for the amended C4 at a concrete input. -/
theorem retry_bounded_amended_witness :
    (((updateQuantityWithRetryEnv cxWenv cxRenvOk "u" "p" 5 1).2.countP isCondWrite
        ≤ maxRetries) ∧
     (∀ u p q v, Ev.condUpdateCart u p q v ∈
         (updateQuantityWithRetryEnv cxWenv cxRenvOk "u" "p" 5 1).2 →
        u = "u" ∧ p = "p" ∧ q = 5) ∧
     ((updateQuantityWithRetryEnv cxWenv cxRenvOk "u" "p" 5 1).1 = .ok () →
        ∃ k v s', CartRepo.updateQuantity (cxWenv k) "u" "p" 5 v = .ok s') ∧
     (∀ it0 it1 it2,
        CartRepo.updateQuantity (cxWenv 0) "u" "p" 5 1 = .error .versionMismatch →
        CartRepo.getItem (cxRenvOk 0) "u" "p" = .ok it0 →
        CartRepo.updateQuantity (cxWenv 1) "u" "p" 5 it0.version =
          .error .versionMismatch →
        CartRepo.getItem (cxRenvOk 1) "u" "p" = .ok it1 →
        CartRepo.updateQuantity (cxWenv 2) "u" "p" 5 it1.version =
          .error .versionMismatch →
        CartRepo.getItem (cxRenvOk 2) "u" "p" = .ok it2 →
        updateQuantityWithRetryEnv cxWenv cxRenvOk "u" "p" 5 1 =
          (.error .optimisticLockRetry,
           [.condUpdateCart "u" "p" 5 1, .getCartItem "u" "p",
            .condUpdateCart "u" "p" 5 it0.version, .getCartItem "u" "p",
            .condUpdateCart "u" "p" 5 it1.version, .getCartItem "u" "p"]))) ∧
    (updateQuantityWithRetryEnv cxWenv cxRenvOk "u" "p" 5 1).1 =
      .error .optimisticLockRetry :=
  ⟨retry_bounded_amended cxWenv cxRenvOk "u" "p" 5 1, by decide⟩

/-! ### Claim C10 -/

/-- C10: inside the retry loop, a failing re-read aborts the loop with the
read error (for each of the three attempt positions), and
`OptimisticLockExhausted` is returned only when all 3 conditional writes
failed with a version mismatch (each retried at the previously re-read
version) and every re-read succeeded. -/
theorem retry_reread_error_propagation (wenv renv : Nat → Store)
    (uid pid : String) (qty v0 : Int) :
    (∀ e, CartRepo.updateQuantity (wenv 0) uid pid qty v0 = .error .versionMismatch →
       CartRepo.getItem (renv 0) uid pid = .error e →
       (updateQuantityWithRetryEnv wenv renv uid pid qty v0).1 = .error e) ∧
    (∀ it0 e,
       CartRepo.updateQuantity (wenv 0) uid pid qty v0 = .error .versionMismatch →
       CartRepo.getItem (renv 0) uid pid = .ok it0 →
       CartRepo.updateQuantity (wenv 1) uid pid qty it0.version =
         .error .versionMismatch →
       CartRepo.getItem (renv 1) uid pid = .error e →
       (updateQuantityWithRetryEnv wenv renv uid pid qty v0).1 = .error e) ∧
    (∀ it0 it1 e,
       CartRepo.updateQuantity (wenv 0) uid pid qty v0 = .error .versionMismatch →
       CartRepo.getItem (renv 0) uid pid = .ok it0 →
       CartRepo.updateQuantity (wenv 1) uid pid qty it0.version =
         .error .versionMismatch →
       CartRepo.getItem (renv 1) uid pid = .ok it1 →
       CartRepo.updateQuantity (wenv 2) uid pid qty it1.version =
         .error .versionMismatch →
       CartRepo.getItem (renv 2) uid pid = .error e →
       (updateQuantityWithRetryEnv wenv renv uid pid qty v0).1 = .error e) ∧
    ((updateQuantityWithRetryEnv wenv renv uid pid qty v0).1 =
        .error .optimisticLockRetry →
       ∃ it0 it1 it2,
         CartRepo.updateQuantity (wenv 0) uid pid qty v0 = .error .versionMismatch ∧
         CartRepo.getItem (renv 0) uid pid = .ok it0 ∧
         CartRepo.updateQuantity (wenv 1) uid pid qty it0.version =
           .error .versionMismatch ∧
         CartRepo.getItem (renv 1) uid pid = .ok it1 ∧
         CartRepo.updateQuantity (wenv 2) uid pid qty it1.version =
           .error .versionMismatch ∧
         CartRepo.getItem (renv 2) uid pid = .ok it2) := by
  have hfuel : maxRetries = 2 + 1 := rfl
  refine ⟨?_, ?_, ?_, ?_⟩
  · intro e hu0 hr0
    unfold updateQuantityWithRetryEnv
    rw [hfuel, retryLoopEnv_step_readerr wenv renv uid pid qty 0 2 v0 e hu0 hr0]
  · intro it0 e hu0 hr0 hu1 hr1
    unfold updateQuantityWithRetryEnv
    rw [hfuel, retryLoopEnv_step_mismatch wenv renv uid pid qty 0 2 v0 it0 hu0 hr0,
      show (2 : Nat) = 1 + 1 from rfl,
      retryLoopEnv_step_readerr wenv renv uid pid qty 1 1 it0.version e hu1 hr1]
  · intro it0 it1 e hu0 hr0 hu1 hr1 hu2 hr2
    unfold updateQuantityWithRetryEnv
    rw [hfuel, retryLoopEnv_step_mismatch wenv renv uid pid qty 0 2 v0 it0 hu0 hr0,
      show (2 : Nat) = 1 + 1 from rfl,
      retryLoopEnv_step_mismatch wenv renv uid pid qty 1 1 it0.version it1 hu1 hr1,
      show (1 : Nat) = 0 + 1 from rfl,
      retryLoopEnv_step_readerr wenv renv uid pid qty 2 0 it1.version e hu2 hr2]
  · intro h
    unfold updateQuantityWithRetryEnv at h
    rw [hfuel] at h
    cases hu0 : CartRepo.updateQuantity (wenv 0) uid pid qty v0 with
    | ok s =>
      rw [retryLoopEnv_step_ok wenv renv uid pid qty 0 2 v0 s hu0] at h
      exact absurd h (by simp)
    | error e0 =>
      have he0 := updateQuantity_error_eq (wenv 0) uid pid qty v0 e0 hu0
      subst he0
      cases hr0 : CartRepo.getItem (renv 0) uid pid with
      | error e' =>
        rw [retryLoopEnv_step_readerr wenv renv uid pid qty 0 2 v0 e' hu0 hr0] at h
        have := getItem_error_eq (renv 0) uid pid e' hr0
        subst this
        simp at h
      | ok it0 =>
        rw [retryLoopEnv_step_mismatch wenv renv uid pid qty 0 2 v0 it0 hu0 hr0,
          show (2 : Nat) = 1 + 1 from rfl] at h
        cases hu1 : CartRepo.updateQuantity (wenv 1) uid pid qty it0.version with
        | ok s =>
          rw [retryLoopEnv_step_ok wenv renv uid pid qty 1 1 it0.version s hu1] at h
          exact absurd h (by simp)
        | error e1 =>
          have he1 := updateQuantity_error_eq (wenv 1) uid pid qty it0.version e1 hu1
          subst he1
          cases hr1 : CartRepo.getItem (renv 1) uid pid with
          | error e' =>
            rw [retryLoopEnv_step_readerr wenv renv uid pid qty 1 1 it0.version e'
              hu1 hr1] at h
            have := getItem_error_eq (renv 1) uid pid e' hr1
            subst this
            simp at h
          | ok it1 =>
            rw [retryLoopEnv_step_mismatch wenv renv uid pid qty 1 1 it0.version it1
              hu1 hr1, show (1 : Nat) = 0 + 1 from rfl] at h
            cases hu2 : CartRepo.updateQuantity (wenv 2) uid pid qty it1.version with
            | ok s =>
              rw [retryLoopEnv_step_ok wenv renv uid pid qty 2 0 it1.version s hu2] at h
              exact absurd h (by simp)
            | error e2 =>
              have he2 := updateQuantity_error_eq (wenv 2) uid pid qty it1.version
                e2 hu2
              subst he2
              cases hr2 : CartRepo.getItem (renv 2) uid pid with
              | error e' =>
                rw [retryLoopEnv_step_readerr wenv renv uid pid qty 2 0
                  it1.version e' hu2 hr2] at h
                have := getItem_error_eq (renv 2) uid pid e' hr2
                subst this
                simp at h
              | ok it2 =>
                exact ⟨it0, it1, it2, rfl, rfl, hu1, rfl, hu2, rfl⟩

/-- Witness for C10: applies the theorem at a concrete environment. -/
theorem retry_reread_error_propagation_witness :
    ((∀ e, CartRepo.updateQuantity (cxWenv 0) "u" "p" 5 1 = .error .versionMismatch →
        CartRepo.getItem (cxRenvGone 0) "u" "p" = .error e →
        (updateQuantityWithRetryEnv cxWenv cxRenvGone "u" "p" 5 1).1 = .error e) ∧
     (∀ it0 e,
        CartRepo.updateQuantity (cxWenv 0) "u" "p" 5 1 = .error .versionMismatch →
        CartRepo.getItem (cxRenvGone 0) "u" "p" = .ok it0 →
        CartRepo.updateQuantity (cxWenv 1) "u" "p" 5 it0.version =
          .error .versionMismatch →
        CartRepo.getItem (cxRenvGone 1) "u" "p" = .error e →
        (updateQuantityWithRetryEnv cxWenv cxRenvGone "u" "p" 5 1).1 = .error e) ∧
     (∀ it0 it1 e,
        CartRepo.updateQuantity (cxWenv 0) "u" "p" 5 1 = .error .versionMismatch →
        CartRepo.getItem (cxRenvGone 0) "u" "p" = .ok it0 →
        CartRepo.updateQuantity (cxWenv 1) "u" "p" 5 it0.version =
          .error .versionMismatch →
        CartRepo.getItem (cxRenvGone 1) "u" "p" = .ok it1 →
        CartRepo.updateQuantity (cxWenv 2) "u" "p" 5 it1.version =
          .error .versionMismatch →
        CartRepo.getItem (cxRenvGone 2) "u" "p" = .error e →
        (updateQuantityWithRetryEnv cxWenv cxRenvGone "u" "p" 5 1).1 = .error e) ∧
     ((updateQuantityWithRetryEnv cxWenv cxRenvGone "u" "p" 5 1).1 =
         .error .optimisticLockRetry →
        ∃ it0 it1 it2,
          CartRepo.updateQuantity (cxWenv 0) "u" "p" 5 1 = .error .versionMismatch ∧
          CartRepo.getItem (cxRenvGone 0) "u" "p" = .ok it0 ∧
          CartRepo.updateQuantity (cxWenv 1) "u" "p" 5 it0.version =
            .error .versionMismatch ∧
          CartRepo.getItem (cxRenvGone 1) "u" "p" = .ok it1 ∧
          CartRepo.updateQuantity (cxWenv 2) "u" "p" 5 it1.version =
            .error .versionMismatch ∧
          CartRepo.getItem (cxRenvGone 2) "u" "p" = .ok it2)) ∧
    (updateQuantityWithRetryEnv cxWenv cxRenvGone "u" "p" 5 1).1 =
      .error .cartItemNotFound :=
  ⟨retry_reread_error_propagation cxWenv cxRenvGone "u" "p" 5 1, by decide⟩

/-! ### Claim C9 -/

/-- C9: every `AddItem` or `UpdateQuantity` call with requested quantity ≤ 0
fails with `InvalidQuantity` before any storage access: the store is
untouched and the storage trace is empty. -/
theorem invalid_quantity_rejected_early (s : Store) (uid pid : String)
    (qty ver : Int) (hq : qty ≤ 0) :
    CartService.addItem s uid pid qty = (.error .invalidQuantity, s, []) ∧
    CartService.updateQuantity s uid pid qty ver = (.error .invalidQuantity, s, []) := by
  constructor
  · simp [CartService.addItem, hq]
  · simp [CartService.updateQuantity, hq]

/-- Witness for C9 at a concrete input. -/
theorem invalid_quantity_rejected_early_witness :
    (0 : Int) ≤ 0 ∧
    (CartService.addItem { carts := [], products := [], orders := [], orderItems := [] }
        "u" "p" 0 =
      (.error .invalidQuantity,
       { carts := [], products := [], orders := [], orderItems := [] }, []) ∧
     CartService.updateQuantity { carts := [], products := [], orders := [], orderItems := [] }
        "u" "p" 0 1 =
      (.error .invalidQuantity,
       { carts := [], products := [], orders := [], orderItems := [] }, [])) :=
  ⟨by decide,
   invalid_quantity_rejected_early
     { carts := [], products := [], orders := [], orderItems := [] } "u" "p" 0 1 (by decide)⟩

/-! ### Claim C8 -/

/-- C8: `CreateOrder` on a user whose cart has no lines fails with the
empty-cart error and submits no transaction: the store is unchanged and the
only storage call made is the cart query (a read). -/
theorem createOrder_empty_cart (sRead sTx : Store) (itf : TxIntf)
    (orderId uid : String) (h : CartRepo.getByUserID sRead uid = []) :
    OrderService.createOrder sRead sTx itf orderId uid =
      (.error emptyCartError, sTx, [.queryCart uid]) ∧
    ∀ ev ∈ (OrderService.createOrder sRead sTx itf orderId uid).2.2,
      isWriteEv ev = false := by
  have hmain : OrderService.createOrder sRead sTx itf orderId uid =
      (.error emptyCartError, sTx, [.queryCart uid]) := by
    simp [OrderService.createOrder, h]
  refine ⟨hmain, ?_⟩
  rw [hmain]
  intro ev hev
  simp at hev
  subst hev
  rfl

/-- Witness for C8 at a concrete input. -/
theorem createOrder_empty_cart_witness :
    CartRepo.getByUserID { carts := [], products := [], orders := [], orderItems := [] } "u"
        = [] ∧
    (OrderService.createOrder
        { carts := [], products := [], orders := [], orderItems := [] }
        { carts := [], products := [], orders := [], orderItems := [] }
        .healthy "o1" "u" =
      (.error emptyCartError,
       { carts := [], products := [], orders := [], orderItems := [] },
       [.queryCart "u"]) ∧
     ∀ ev ∈ (OrderService.createOrder
        { carts := [], products := [], orders := [], orderItems := [] }
        { carts := [], products := [], orders := [], orderItems := [] }
        .healthy "o1" "u").2.2, isWriteEv ev = false) :=
  ⟨by decide,
   createOrder_empty_cart
     { carts := [], products := [], orders := [], orderItems := [] }
     { carts := [], products := [], orders := [], orderItems := [] }
     .healthy "o1" "u" (by decide)⟩

/-! ### Claim C2 -/

theorem classify_of_condfail (l : List String)
    (hshape : ∀ r ∈ l, r = "None" ∨ r = "ConditionalCheckFailed")
    (hmem : "ConditionalCheckFailed" ∈ l) :
    classifyReasons l = some .insufficientStockTx := by
  induction l with
  | nil => simp at hmem
  | cons r rs ih =>
    by_cases hr : r = "ConditionalCheckFailed"
    · simp [classifyReasons, hr]
    · rcases hshape r (by simp) with h | h
      · subst h
        have hmem' : "ConditionalCheckFailed" ∈ rs := by
          rcases List.mem_cons.1 hmem with h | h
          · exact absurd h (by decide)
          · exact h
        rw [classifyReasons, if_neg (by decide), if_neg (by decide)]
        exact ih (fun x hx => hshape x (by simp [hx])) hmem'
      · exact absurd h hr

theorem buildTx_all_cond (s : Store) (orderId : String) (order : Order)
    (items : List OrderItem) (cartItems : List CartItem) :
    ((buildTransactItems orderId order items cartItems).all (condCheck s) = true) ↔
      ∀ it ∈ items, stockOK s.products it.productId it.quantity = true := by
  simp [buildTransactItems, condCheck, List.all_append, List.all_eq_true]

theorem repo_createOrder_eq (s : Store) (itf : TxIntf) (orderId : String)
    (order : Order) (items : List OrderItem) (cartItems : List CartItem) :
    OrderRepo.createOrder s itf orderId order items cartItems =
      (match transactWrite s (buildTransactItems orderId order items cartItems) itf with
       | .ok s' => .ok ({ order with id := orderId }, s')
       | .canceled rs =>
         .error (match classifyReasons rs with
                 | some e => e
                 | none => .txCanceled rs)
       | .failed c => .error (.storage c),
       [.txSubmit (buildTransactItems orderId order items cartItems)]) := rfl

theorem transactWrite_healthy_all_true (s : Store) (ops : List TxOp)
    (h : ops.all (condCheck s) = true) :
    transactWrite s ops .healthy = .ok (applyOps s ops) := by
  unfold transactWrite
  rw [if_pos h]

theorem transactWrite_healthy_all_false (s : Store) (ops : List TxOp)
    (h : ops.all (condCheck s) = false) :
    transactWrite s ops .healthy =
      .canceled (ops.map fun op =>
        if condCheck s op then "None" else "ConditionalCheckFailed") := by
  unfold transactWrite
  rw [if_neg (by simp [h])]

theorem service_match_repo (sRead sTx : Store) (itf : TxIntf) (orderId uid : String)
    (hne : CartRepo.getByUserID sRead uid ≠ []) (res : Except Err (Order × Store))
    (tr : List Ev)
    (h : OrderRepo.createOrder sTx itf orderId
        (buildOrder uid (CartRepo.getByUserID sRead uid))
        (buildOrderItems (CartRepo.getByUserID sRead uid))
        (CartRepo.getByUserID sRead uid) = (res, tr)) :
    OrderService.createOrder sRead sTx itf orderId uid =
      (match res with
       | .ok (o, s') =>
         (.ok { o with items := buildOrderItems (CartRepo.getByUserID sRead uid) },
          s', .queryCart uid :: tr)
       | .error e => (.error e, sTx, .queryCart uid :: tr)) := by
  have hie : (CartRepo.getByUserID sRead uid).isEmpty = false := by
    cases hc : CartRepo.getByUserID sRead uid with
    | nil => exact absurd hc hne
    | cons a l => rfl
  cases res with
  | ok x =>
    obtain ⟨o, s'⟩ := x
    simp [OrderService.createOrder, hie, h]
  | error e =>
    simp [OrderService.createOrder, hie, h]

/-- C2: when the submitted checkout transaction fails, the returned store
is exactly the submit-time store (cart lines and product stocks
unchanged); a healthy submission in which some cart line's stock-decrement
condition fails is classified `InsufficientStock`; an externally canceled
transaction is classified by the first classified cancellation reason
(`TransactionConflict` for a conflict), surfaced as the raw cancellation
when no reason is classified; and any other storage failure is surfaced
as-is. -/
theorem createOrder_failure_atomicity_classification
    (sRead sTx : Store) (itf : TxIntf) (orderId uid : String)
    (hne : CartRepo.getByUserID sRead uid ≠ []) :
    (∀ e, (OrderService.createOrder sRead sTx itf orderId uid).1 = .error e →
       (OrderService.createOrder sRead sTx itf orderId uid).2.1 = sTx) ∧
    (itf = .healthy →
       (∃ c ∈ CartRepo.getByUserID sRead uid,
          stockOK sTx.products c.productId c.quantity = false) →
       (OrderService.createOrder sRead sTx itf orderId uid).1 =
         .error .insufficientStockTx) ∧
    (∀ rs e, itf = .canceled rs → classifyReasons rs = some e →
       (OrderService.createOrder sRead sTx itf orderId uid).1 = .error e) ∧
    (∀ rs, itf = .canceled rs → classifyReasons rs = none →
       (OrderService.createOrder sRead sTx itf orderId uid).1 =
         .error (.txCanceled rs)) ∧
    (∀ code, itf = .failure code →
       (OrderService.createOrder sRead sTx itf orderId uid).1 =
         .error (.storage code)) := by
  refine ⟨?_, ?_, ?_, ?_, ?_⟩
  · intro e herr
    rcases hrepo : OrderRepo.createOrder sTx itf orderId
        (buildOrder uid (CartRepo.getByUserID sRead uid))
        (buildOrderItems (CartRepo.getByUserID sRead uid))
        (CartRepo.getByUserID sRead uid) with ⟨res, tr⟩
    have hs := service_match_repo sRead sTx itf orderId uid hne res tr hrepo
    cases res with
    | ok x =>
      obtain ⟨o, s'⟩ := x
      rw [hs] at herr
      simp at herr
    | error e' =>
      rw [hs]
  · intro hh hex
    subst hh
    obtain ⟨c, hcmem, hcfail⟩ := hex
    have hitmem : toOrderItem c ∈ buildOrderItems (CartRepo.getByUserID sRead uid) :=
      List.mem_map_of_mem _ hcmem
    have hallfalse : ((buildTransactItems orderId
        (buildOrder uid (CartRepo.getByUserID sRead uid))
        (buildOrderItems (CartRepo.getByUserID sRead uid))
        (CartRepo.getByUserID sRead uid)).all (condCheck sTx)) = false := by
      cases hall : ((buildTransactItems orderId
          (buildOrder uid (CartRepo.getByUserID sRead uid))
          (buildOrderItems (CartRepo.getByUserID sRead uid))
          (CartRepo.getByUserID sRead uid)).all (condCheck sTx)) with
      | false => rfl
      | true =>
        have := (buildTx_all_cond sTx orderId _ _ _).1 hall _ hitmem
        simp only [toOrderItem] at this
        rw [hcfail] at this
        exact absurd this (by decide)
    have hshape : ∀ r ∈ ((buildTransactItems orderId
        (buildOrder uid (CartRepo.getByUserID sRead uid))
        (buildOrderItems (CartRepo.getByUserID sRead uid))
        (CartRepo.getByUserID sRead uid)).map fun op =>
          if condCheck sTx op then "None" else "ConditionalCheckFailed"),
        r = "None" ∨ r = "ConditionalCheckFailed" := by
      intro r hr
      rcases List.mem_map.1 hr with ⟨op, _, hop⟩
      by_cases hc2 : condCheck sTx op = true
      · left; rw [← hop, if_pos hc2]
      · right; rw [← hop, if_neg hc2]
    have hopmem : TxOp.decStock c.productId c.quantity ∈
        buildTransactItems orderId
          (buildOrder uid (CartRepo.getByUserID sRead uid))
          (buildOrderItems (CartRepo.getByUserID sRead uid))
          (CartRepo.getByUserID sRead uid) := by
      unfold buildTransactItems
      refine List.mem_append_left _ (List.mem_append_right _ ?_)
      exact List.mem_map_of_mem _ hitmem
    have hccf : "ConditionalCheckFailed" ∈ ((buildTransactItems orderId
        (buildOrder uid (CartRepo.getByUserID sRead uid))
        (buildOrderItems (CartRepo.getByUserID sRead uid))
        (CartRepo.getByUserID sRead uid)).map fun op =>
          if condCheck sTx op then "None" else "ConditionalCheckFailed") := by
      refine List.mem_map.2 ⟨TxOp.decStock c.productId c.quantity, hopmem, ?_⟩
      have : condCheck sTx (TxOp.decStock c.productId c.quantity) = false := hcfail
      rw [this]
      rfl
    have hclass := classify_of_condfail _ hshape hccf
    have hrepo : OrderRepo.createOrder sTx .healthy orderId
        (buildOrder uid (CartRepo.getByUserID sRead uid))
        (buildOrderItems (CartRepo.getByUserID sRead uid))
        (CartRepo.getByUserID sRead uid) =
        (.error .insufficientStockTx,
         [.txSubmit (buildTransactItems orderId
           (buildOrder uid (CartRepo.getByUserID sRead uid))
           (buildOrderItems (CartRepo.getByUserID sRead uid))
           (CartRepo.getByUserID sRead uid))]) := by
      rw [repo_createOrder_eq,
        transactWrite_healthy_all_false _ _ hallfalse]
      simp [hclass]
    rw [service_match_repo sRead sTx .healthy orderId uid hne _ _ hrepo]
  · intro rs e hh hclass
    subst hh
    have hrepo : OrderRepo.createOrder sTx (.canceled rs) orderId
        (buildOrder uid (CartRepo.getByUserID sRead uid))
        (buildOrderItems (CartRepo.getByUserID sRead uid))
        (CartRepo.getByUserID sRead uid) =
        (.error e,
         [.txSubmit (buildTransactItems orderId
           (buildOrder uid (CartRepo.getByUserID sRead uid))
           (buildOrderItems (CartRepo.getByUserID sRead uid))
           (CartRepo.getByUserID sRead uid))]) := by
      rw [repo_createOrder_eq]
      simp [transactWrite, hclass]
    rw [service_match_repo sRead sTx (.canceled rs) orderId uid hne _ _ hrepo]
  · intro rs hh hclass
    subst hh
    have hrepo : OrderRepo.createOrder sTx (.canceled rs) orderId
        (buildOrder uid (CartRepo.getByUserID sRead uid))
        (buildOrderItems (CartRepo.getByUserID sRead uid))
        (CartRepo.getByUserID sRead uid) =
        (.error (.txCanceled rs),
         [.txSubmit (buildTransactItems orderId
           (buildOrder uid (CartRepo.getByUserID sRead uid))
           (buildOrderItems (CartRepo.getByUserID sRead uid))
           (CartRepo.getByUserID sRead uid))]) := by
      rw [repo_createOrder_eq]
      simp [transactWrite, hclass]
    rw [service_match_repo sRead sTx (.canceled rs) orderId uid hne _ _ hrepo]
  · intro code hh
    subst hh
    have hrepo : OrderRepo.createOrder sTx (.failure code) orderId
        (buildOrder uid (CartRepo.getByUserID sRead uid))
        (buildOrderItems (CartRepo.getByUserID sRead uid))
        (CartRepo.getByUserID sRead uid) =
        (.error (.storage code),
         [.txSubmit (buildTransactItems orderId
           (buildOrder uid (CartRepo.getByUserID sRead uid))
           (buildOrderItems (CartRepo.getByUserID sRead uid))
           (CartRepo.getByUserID sRead uid))]) := by
      rw [repo_createOrder_eq]
      simp [transactWrite]
    rw [service_match_repo sRead sTx (.failure code) orderId uid hne _ _ hrepo]

/-- Witness for C2 at a concrete input. -/
theorem createOrder_failure_atomicity_classification_witness :
    CartRepo.getByUserID wStoreShort "u" ≠ [] ∧
    ((∀ e, (OrderService.createOrder wStoreShort wStoreShort .healthy "o1" "u").1 =
         .error e →
       (OrderService.createOrder wStoreShort wStoreShort .healthy "o1" "u").2.1 =
         wStoreShort) ∧
     (TxIntf.healthy = .healthy →
       (∃ c ∈ CartRepo.getByUserID wStoreShort "u",
          stockOK wStoreShort.products c.productId c.quantity = false) →
       (OrderService.createOrder wStoreShort wStoreShort .healthy "o1" "u").1 =
         .error .insufficientStockTx) ∧
     (∀ rs e, TxIntf.healthy = .canceled rs → classifyReasons rs = some e →
       (OrderService.createOrder wStoreShort wStoreShort .healthy "o1" "u").1 =
         .error e) ∧
     (∀ rs, TxIntf.healthy = .canceled rs → classifyReasons rs = none →
       (OrderService.createOrder wStoreShort wStoreShort .healthy "o1" "u").1 =
         .error (.txCanceled rs)) ∧
     (∀ code, TxIntf.healthy = .failure code →
       (OrderService.createOrder wStoreShort wStoreShort .healthy "o1" "u").1 =
         .error (.storage code))) :=
  ⟨by decide,
   createOrder_failure_atomicity_classification wStoreShort wStoreShort .healthy
     "o1" "u" (by decide)⟩

/-! ### Transaction-application lemmas -/

theorem applyOps_append (s : Store) (l1 l2 : List TxOp) :
    applyOps s (l1 ++ l2) = applyOps (applyOps s l1) l2 := by
  unfold applyOps
  exact List.foldl_append _ _ _ _

theorem applyOps_map_deleteCart (cart : List CartItem) :
    ∀ s : Store,
      applyOps s (cart.map fun c => TxOp.deleteCart c.userId c.productId) =
        { s with carts :=
            (cart.foldl (fun acc c => eraseList cartKey (c.userId, c.productId) acc)
              s.carts) } := by
  induction cart with
  | nil => intro s; rfl
  | cons c rest ih =>
    intro s
    rw [List.map_cons]
    show applyOps (applyOp s (TxOp.deleteCart c.userId c.productId))
      (rest.map fun c => TxOp.deleteCart c.userId c.productId) = _
    rw [ih]
    rfl

theorem applyOps_map_putOrderItem (f : OrderItem → OrderItem) (items : List OrderItem) :
    ∀ s : Store,
      applyOps s (items.map fun it => TxOp.putOrderItem (f it)) =
        { s with orderItems :=
            items.foldl (fun acc it => putList orderItemKey (f it) acc) s.orderItems } := by
  induction items with
  | nil => intro s; rfl
  | cons it rest ih =>
    intro s
    rw [List.map_cons]
    show applyOps (applyOp s (TxOp.putOrderItem (f it)))
      (rest.map fun it => TxOp.putOrderItem (f it)) = _
    rw [ih]
    rfl

theorem applyOps_map_decStock (items : List OrderItem) :
    ∀ s : Store,
      applyOps s (items.map fun it => TxOp.decStock it.productId it.quantity) =
        { s with products :=
            (items.foldl (fun acc it => decStockList it.productId it.quantity acc)
              s.products) } := by
  induction items with
  | nil => intro s; rfl
  | cons it rest ih =>
    intro s
    rw [List.map_cons]
    show applyOps (applyOp s (TxOp.decStock it.productId it.quantity))
      (rest.map fun it => TxOp.decStock it.productId it.quantity) = _
    rw [ih]
    rfl

/-- The committed checkout transaction, by store component: one header put,
the order-line puts, the stock decrements, the cart deletes. -/
theorem applyOps_buildTx (orderId : String) (order : Order)
    (items : List OrderItem) (cart : List CartItem) (s : Store) :
    applyOps s (buildTransactItems orderId order items cart) =
      { s with
        orders := (putList orderKey
          { orderId := orderId, userId := order.userId,
            status := OrderStatusConfirmed, totalAmount := order.totalAmount,
            itemCount := order.itemCount } s.orders),
        orderItems := (items.foldl (fun acc it =>
          putList orderItemKey (stampOrderItem orderId it) acc) s.orderItems),
        products := (items.foldl (fun acc it =>
          decStockList it.productId it.quantity acc) s.products),
        carts := (cart.foldl (fun acc c =>
          eraseList cartKey (c.userId, c.productId) acc) s.carts) } := by
  unfold buildTransactItems
  rw [applyOps_append, applyOps_append, applyOps_append,
    applyOps_map_putOrderItem (stampOrderItem orderId),
    applyOps_map_decStock, applyOps_map_deleteCart]
  rfl
/-! ### Product-list decrement lemmas -/

theorem lookup_decStockList (pid : String) (qty : Int) (l : List Product)
    (k : String) :
    lookupList productKey k (decStockList pid qty l) =
      if k = pid then
        (lookupList productKey pid l).map
          (fun p => { p with stockAttr := p.stockAttr.map (fun v => v - qty) })
      else lookupList productKey k l := by
  induction l with
  | nil => by_cases hk : k = pid <;> simp [decStockList, lookupList, hk]
  | cons p ps ih =>
    by_cases hk : k = pid
    · subst hk
      by_cases hp : p.id = k
      · simp [decStockList, lookupList, hp, productKey]
      · simp [decStockList, lookupList, hp, productKey, ih]
    · by_cases hp : p.id = pid
      · have h1 : ¬ p.id = k := fun h => hk (h.symm.trans hp)
        have h2 : ¬ pid = k := fun h => hk h.symm
        simp [decStockList, lookupList, hp, hk, productKey, h1, h2]
      · simp [decStockList, lookupList, hp, hk, productKey, ih]

theorem lookupList_mem {α κ : Type} [DecidableEq κ] (key : α → κ) (k : κ) :
    ∀ (l : List α) (x : α), lookupList key k l = some x → x ∈ l := by
  intro l
  induction l with
  | nil => intro x h; exact absurd h (by simp [lookupList])
  | cons y ys ih =>
    intro x h
    rw [lookupList] at h
    by_cases hy : key y = k
    · rw [if_pos hy] at h
      injection h with h
      subst h
      exact List.mem_cons_self y ys
    · rw [if_neg hy] at h
      exact List.mem_cons_of_mem y (ih x h)

/-- On a product list none of whose rows carries the `Stock` attribute —
the state of every program-written store, since no code path writes that
attribute — the checkout condition evaluates false at every product id and
every quantity. -/
theorem stockOK_of_noattr (l : List Product)
    (hnoattr : ∀ p ∈ l, p.stockAttr = none) (pid : String) (qty : Int) :
    stockOK l pid qty = false := by
  unfold stockOK
  cases h : lookupList productKey pid l with
  | none => rfl
  | some p =>
    have hp := hnoattr p (lookupList_mem productKey pid l p h)
    simp [hp]

/-- The checkout stock decrements never change the persisted `stock`
attribute of any product row: the update expression sets only the `Stock`
attribute. -/
theorem lookup_decStockFold_stock :
    ∀ (items : List OrderItem) (l : List Product) (k : String),
      (lookupList productKey k
        (items.foldl (fun acc it => decStockList it.productId it.quantity acc) l)).map
        (fun p => p.stock) =
      (lookupList productKey k l).map (fun p => p.stock) := by
  intro items
  induction items with
  | nil => intro l k; rfl
  | cons it0 rest ih =>
    intro l k
    rw [List.foldl_cons, ih, lookup_decStockList]
    by_cases hk : k = it0.productId
    · rw [if_pos hk]
      subst hk
      cases lookupList productKey it0.productId l <;> rfl
    · rw [if_neg hk]

/-- A healthy checkout submission in which some cart line fails the stock
condition: the service returns `ErrInsufficientStock`, the store is
unchanged, and the trace is the cart query followed by the one transaction
submission. -/
theorem createOrder_healthy_condfail (sRead sTx : Store) (orderId uid : String)
    (hne : CartRepo.getByUserID sRead uid ≠ [])
    (c : CartItem) (hcmem : c ∈ CartRepo.getByUserID sRead uid)
    (hcfail : stockOK sTx.products c.productId c.quantity = false) :
    OrderService.createOrder sRead sTx .healthy orderId uid =
      (.error .insufficientStockTx, sTx,
       [.queryCart uid, .txSubmit (buildTransactItems orderId
          (buildOrder uid (CartRepo.getByUserID sRead uid))
          (buildOrderItems (CartRepo.getByUserID sRead uid))
          (CartRepo.getByUserID sRead uid))]) := by
  have hitmem : toOrderItem c ∈ buildOrderItems (CartRepo.getByUserID sRead uid) :=
    List.mem_map_of_mem _ hcmem
  have hallfalse : ((buildTransactItems orderId
      (buildOrder uid (CartRepo.getByUserID sRead uid))
      (buildOrderItems (CartRepo.getByUserID sRead uid))
      (CartRepo.getByUserID sRead uid)).all (condCheck sTx)) = false := by
    cases hall : ((buildTransactItems orderId
        (buildOrder uid (CartRepo.getByUserID sRead uid))
        (buildOrderItems (CartRepo.getByUserID sRead uid))
        (CartRepo.getByUserID sRead uid)).all (condCheck sTx)) with
    | false => rfl
    | true =>
      have := (buildTx_all_cond sTx orderId _ _ _).1 hall _ hitmem
      simp only [toOrderItem] at this
      rw [hcfail] at this
      exact absurd this (by decide)
  have hshape : ∀ r ∈ ((buildTransactItems orderId
      (buildOrder uid (CartRepo.getByUserID sRead uid))
      (buildOrderItems (CartRepo.getByUserID sRead uid))
      (CartRepo.getByUserID sRead uid)).map fun op =>
        if condCheck sTx op then "None" else "ConditionalCheckFailed"),
      r = "None" ∨ r = "ConditionalCheckFailed" := by
    intro r hr
    rcases List.mem_map.1 hr with ⟨op, _, hop⟩
    by_cases hc2 : condCheck sTx op = true
    · left; rw [← hop, if_pos hc2]
    · right; rw [← hop, if_neg hc2]
  have hopmem : TxOp.decStock c.productId c.quantity ∈
      buildTransactItems orderId
        (buildOrder uid (CartRepo.getByUserID sRead uid))
        (buildOrderItems (CartRepo.getByUserID sRead uid))
        (CartRepo.getByUserID sRead uid) := by
    unfold buildTransactItems
    refine List.mem_append_left _ (List.mem_append_right _ ?_)
    exact List.mem_map_of_mem _ hitmem
  have hccf : "ConditionalCheckFailed" ∈ ((buildTransactItems orderId
      (buildOrder uid (CartRepo.getByUserID sRead uid))
      (buildOrderItems (CartRepo.getByUserID sRead uid))
      (CartRepo.getByUserID sRead uid)).map fun op =>
        if condCheck sTx op then "None" else "ConditionalCheckFailed") := by
    refine List.mem_map.2 ⟨TxOp.decStock c.productId c.quantity, hopmem, ?_⟩
    have : condCheck sTx (TxOp.decStock c.productId c.quantity) = false := hcfail
    rw [this]
    rfl
  have hclass := classify_of_condfail _ hshape hccf
  have hrepo : OrderRepo.createOrder sTx .healthy orderId
      (buildOrder uid (CartRepo.getByUserID sRead uid))
      (buildOrderItems (CartRepo.getByUserID sRead uid))
      (CartRepo.getByUserID sRead uid) =
      (.error .insufficientStockTx,
       [.txSubmit (buildTransactItems orderId
         (buildOrder uid (CartRepo.getByUserID sRead uid))
         (buildOrderItems (CartRepo.getByUserID sRead uid))
         (CartRepo.getByUserID sRead uid))]) := by
    rw [repo_createOrder_eq,
      transactWrite_healthy_all_false _ _ hallfalse]
    simp [hclass]
  exact service_match_repo sRead sTx .healthy orderId uid hne _ _ hrepo

/-! ### Claim C5 -/

/-- C5: the checkout gate does not test `Product.stock` at all, refuting
the claimed mechanism.  (a) The condition of a stock decrement holds iff
the separate (never-written) `Stock` attribute is present with value at
least the quantity — the persisted stock never enters the gate; (b) on any
store whose product rows lack the `Stock` attribute — every program-written
store — no checkout transaction containing at least one order line ever
commits; (c) even a committed checkout leaves the persisted stock of every
product unchanged, so the claimed gated decrement (stock 5 ending at 2
after a quantity-3 checkout) is unreachable: checkout never decrements
`Product.stock` on any path. -/
theorem stock_gate_attribute_bug (s : Store) (orderId : String) (order : Order)
    (items : List OrderItem) (cartItems : List CartItem) :
    (∀ pid qty, condCheck s (TxOp.decStock pid qty) = true ↔
       ∃ p v, lookupList productKey pid s.products = some p ∧
         p.stockAttr = some v ∧ qty ≤ v) ∧
    ((∀ p ∈ s.products, p.stockAttr = none) → items ≠ [] →
       ∀ s', transactWrite s (buildTransactItems orderId order items cartItems)
         .healthy ≠ .ok s') ∧
    (∀ s', transactWrite s (buildTransactItems orderId order items cartItems)
        .healthy = .ok s' →
       ∀ pid, (lookupList productKey pid s'.products).map (fun p => p.stock) =
         (lookupList productKey pid s.products).map (fun p => p.stock)) := by
  refine ⟨?_, ?_, ?_⟩
  · intro pid qty
    show stockOK s.products pid qty = true ↔ _
    unfold stockOK
    cases h : lookupList productKey pid s.products with
    | none => simp
    | some p =>
      cases ha : p.stockAttr with
      | none => simp [ha]
      | some v => simp [ha]
  · intro hnoattr hne s' htx
    rcases List.exists_mem_of_ne_nil _ hne with ⟨it0, hit0⟩
    cases hall : (buildTransactItems orderId order items cartItems).all
        (condCheck s) with
    | true =>
      have := (buildTx_all_cond s orderId order items cartItems).1 hall it0 hit0
      rw [stockOK_of_noattr s.products hnoattr] at this
      exact absurd this (by decide)
    | false =>
      rw [transactWrite_healthy_all_false _ _ hall] at htx
      exact absurd htx (by simp)
  · intro s' htx pid
    have hall : (buildTransactItems orderId order items cartItems).all
        (condCheck s) = true := by
      cases hall : (buildTransactItems orderId order items cartItems).all
          (condCheck s) with
      | true => rfl
      | false =>
        rw [transactWrite_healthy_all_false _ _ hall] at htx
        exact absurd htx (by simp)
    rw [transactWrite_healthy_all_true _ _ hall] at htx
    injection htx with htx
    subst htx
    rw [applyOps_buildTx]
    exact lookup_decStockFold_stock items s.products pid

/-- Witness for C5 at the spec scenario input: one cart line of quantity 3
against a product whose persisted stock is 5 and which, like every
program-written row, has no `Stock` attribute.  The decide conjuncts check
the concrete outcome: the submission is canceled with
`ConditionalCheckFailed` at the decrement, and the persisted stock is 5
with 3 ≤ 5. -/
theorem stock_gate_attribute_bug_witness :
    ((∀ pid qty, condCheck wStore5 (TxOp.decStock pid qty) = true ↔
        ∃ p v, lookupList productKey pid wStore5.products = some p ∧
          p.stockAttr = some v ∧ qty ≤ v) ∧
     ((∀ p ∈ wStore5.products, p.stockAttr = none) →
        buildOrderItems [wLine3] ≠ [] →
        ∀ s', transactWrite wStore5 wOps5 .healthy ≠ .ok s') ∧
     (∀ s', transactWrite wStore5 wOps5 .healthy = .ok s' →
        ∀ pid, (lookupList productKey pid s'.products).map (fun p => p.stock) =
          (lookupList productKey pid wStore5.products).map (fun p => p.stock))) ∧
    transactWrite wStore5 wOps5 .healthy =
      .canceled ["None", "None", "ConditionalCheckFailed", "None"] ∧
    lookupList productKey "p" wStore5.products = some wProduct5 ∧
    wProduct5.stock = 5 ∧ (3 : Int) ≤ wProduct5.stock :=
  ⟨stock_gate_attribute_bug wStore5 "o1" (buildOrder "u" [wLine3])
     (buildOrderItems [wLine3]) [wLine3],
   by decide, by decide, by decide, by decide⟩

/-! ### Claim C1 -/

/-- C1: the success path the claim describes is unreachable on
program-written data, refuting the claim as stated.  The checkout
condition tests the attribute `Stock` (capital), which no code path ever
writes (`productRecord` persists only `stock`), so on every store whose
product rows lack that attribute the condition of every stock decrement is
false regardless of the persisted stock, and `CreateOrder` on any
non-empty cart returns `ErrInsufficientStock` with the store unchanged: no
cart line is consumed, no order header or order line is stored, and no
`Product.stock` is decremented. -/
theorem createOrder_stock_attribute_bug (sRead sTx : Store) (orderId uid : String)
    (hne : CartRepo.getByUserID sRead uid ≠ [])
    (hnoattr : ∀ p ∈ sTx.products, p.stockAttr = none) :
    (OrderService.createOrder sRead sTx .healthy orderId uid).1 =
      .error .insufficientStockTx ∧
    (OrderService.createOrder sRead sTx .healthy orderId uid).2.1 = sTx ∧
    (∀ pid qty, condCheck sTx (TxOp.decStock pid qty) = false) := by
  rcases List.exists_mem_of_ne_nil _ hne with ⟨c, hc⟩
  have hfalse : stockOK sTx.products c.productId c.quantity = false :=
    stockOK_of_noattr sTx.products hnoattr _ _
  have h := createOrder_healthy_condfail sRead sTx orderId uid hne c hc hfalse
  refine ⟨by rw [h], by rw [h], ?_⟩
  intro pid qty
  exact stockOK_of_noattr sTx.products hnoattr pid qty

/-- Witness for C1 at the spec scenario input: a one-line cart of quantity
3, a product with ample persisted stock 5 and (as written by the program)
no `Stock` attribute; the checkout nonetheless fails with
`ErrInsufficientStock` and changes nothing. -/
theorem createOrder_stock_attribute_bug_witness :
    (CartRepo.getByUserID wStore5 "u" ≠ [] ∧
     (∀ p ∈ wStore5.products, p.stockAttr = none)) ∧
    ((OrderService.createOrder wStore5 wStore5 .healthy "o1" "u").1 =
       .error .insufficientStockTx ∧
     (OrderService.createOrder wStore5 wStore5 .healthy "o1" "u").2.1 = wStore5 ∧
     (∀ pid qty, condCheck wStore5 (TxOp.decStock pid qty) = false)) ∧
    (wLine3 ∈ CartRepo.getByUserID wStore5 "u" ∧
     lookupList productKey "p" wStore5.products = some wProduct5 ∧
     wLine3.quantity ≤ wProduct5.stock) :=
  ⟨⟨by decide, by decide⟩,
   createOrder_stock_attribute_bug wStore5 wStore5 "o1" "u" (by decide) (by decide),
   by decide, by decide, by decide⟩

end DShop
